import Mathlib

/-!
Shallow embedding of the `necroventure` roguelike engine
(`src/engine.rs`, `src/engine/conf.rs`, `src/main.rs`) together with
proofs of the specification claims about it.

Modelling conventions:
* Rust `i32` values are embedded as `Int` and `u32`/`usize` values as `Nat`
  (no arithmetic in the verified paths approaches the 32-bit overflow
  boundary);
* fallible operations (index panics, `unwrap` on `None`, empty
  `gen_range` ranges, `WeightedIndex::new` failure) return `Option`,
  with `none` standing for a panic;
* the thread RNG is an explicit stream of integers (`Rng`); a stream value
  `r` drawn for `gen_range(lo..hi)` yields `lo + r mod (hi-lo)`, so every
  value of the range is reachable for a suitable stream;
* `f32` Euclidean-distance comparisons `sqrt(dx^2+dy^2) <= c` (resp. `<`)
  with integer `dx`, `dy`, `c` are embedded as exact integer comparisons
  `dx^2+dy^2 <= c^2` (resp. `<`); for the in-map magnitudes involved the
  correctly-rounded `f32` square root decides these comparisons exactly;
* the tcod presentation layer (rendering, input, field-of-view) is an
  external collaborator: the field-of-view is a boolean oracle, and the
  interactive tile/monster selection loops (`target_tile`,
  `target_monster`) are replaced by their outcome, passed as a parameter.
-/

namespace Necro

/-- tcod RGB color (`tcod::colors::Color`). -/
structure Color where
  r : Nat
  g : Nat
  b : Nat
deriving DecidableEq, Repr

def WHITE : Color := ⟨255, 255, 255⟩
def RED : Color := ⟨255, 0, 0⟩
def DARK_RED : Color := ⟨191, 0, 0⟩
def ORANGE : Color := ⟨255, 127, 0⟩
def YELLOW : Color := ⟨255, 255, 0⟩
def GREEN : Color := ⟨0, 255, 0⟩
def SKY : Color := ⟨0, 191, 255⟩
def LIGHT_GREEN : Color := ⟨63, 255, 63⟩
def LIGHT_YELLOW : Color := ⟨255, 255, 63⟩
def LIGHT_BLUE : Color := ⟨63, 63, 255⟩
def LIGHT_VIOLET : Color := ⟨184, 63, 255⟩
def LIGHT_CYAN : Color := ⟨63, 255, 255⟩
def LIGHTER_CYAN : Color := ⟨127, 255, 255⟩

/-- `PLAYER_ID` from `engine.rs`. -/
def PLAYER_ID : Nat := 0
/-- `MAX_INV_SPACE` from `engine.rs`. -/
def MAX_INV_SPACE : Nat := 26

def HEAL_AMOUNT : Int := 12
def LIGHTNING_DAMAGE : Int := 40
def LIGHTNING_RANGE : Int := 5
def CONFUSE_RANGE : Int := 8
def CONFUSE_NUM_TURNS : Int := 10
def FIREBALL_DAMAGE : Int := 24
def FIREBALL_RADIUS : Int := 3

def LEVEL_UP_BASE : Nat := 50
def LEVEL_UP_FACTOR : Nat := 150

/-- Equipment slots (`Slot` in `engine.rs`). -/
inductive Slot where
  | LeftHand
  | RightHand
  | Head
deriving DecidableEq, Repr

/-- Item kinds (`Item` in `engine.rs`). -/
inductive Item where
  | Heal
  | Lightning
  | Confuse
  | Fireball
  | Sword
  | Shield
  | Helmet
deriving DecidableEq, Repr

/-- Death callbacks (`DeathCallback` in `engine.rs`). -/
inductive DeathCallback where
  | Player
  | Monster
deriving DecidableEq, Repr

/-- An object that can be equipped, yielding bonuses (`Equipment`). -/
structure Equipment where
  slot : Slot
  equipped : Bool
  max_hp_bonus : Int
  power_bonus : Int
  defense_bonus : Int
deriving DecidableEq, Repr

/-- Combat-related properties (`Fighter` in `engine.rs`). -/
structure Fighter where
  base_max_hp : Int
  hp : Int
  base_defense : Int
  base_power : Int
  xp : Nat
  on_death : DeathCallback
deriving DecidableEq, Repr

/-- Monster AI state (`Ai` in `engine.rs`): the `Confused` variant owns the
previous AI and a signed turn counter. -/
inductive Ai where
  | Basic : Ai
  | Confused : Ai → Int → Ai
deriving DecidableEq, Repr

/-- Map tile (`Tile` in `engine.rs`). -/
structure Tile where
  blocked : Bool
  block_sight : Bool
  explored : Bool
deriving DecidableEq, Repr

def Tile.empty : Tile := ⟨false, false, false⟩

def Tile.wall : Tile := ⟨true, true, false⟩

/-- One row of a spawn table (`Transition` in `conf.rs`); both fields are
`u32` in the source. -/
structure Transition where
  level : Nat
  value : Nat
deriving DecidableEq, Repr

/-- Returns a value that depends on level; the table specifies what value
occurs after each level, default is 0 (`from_dungeon_level` in
`engine.rs`). -/
def from_dungeon_level (table : List Transition) (level : Nat) : Nat :=
  (((table.reverse).find? (fun transition => level ≥ transition.level)).map
    (fun transition => transition.value)).getD 0

/-- Game display object (`DisplayObj` in `engine.rs`). -/
structure DisplayObj where
  x : Int
  y : Int
  char : Char
  color : Color
  name : String
  blocks : Bool
  alive : Bool
  always_visible : Bool
  fighter : Option Fighter
  ai : Option Ai
  item : Option Item
  level : Nat
  equipment : Option Equipment
deriving DecidableEq, Repr

def DisplayObj.new (x y : Int) (char : Char) (name : String) (color : Color)
    (blocks : Bool) : DisplayObj :=
  { x := x, y := y, char := char, color := color, name := name,
    blocks := blocks, alive := false, always_visible := false,
    fighter := none, ai := none, item := none, level := 1,
    equipment := none }

def DisplayObj.get_pos (o : DisplayObj) : Int × Int := (o.x, o.y)

def DisplayObj.set_pos (o : DisplayObj) (x y : Int) : DisplayObj :=
  { o with x := x, y := y }

/-- Squared Euclidean distance between two objects; the source compares the
`f32` value `sqrt(dx^2+dy^2)` against integer thresholds, which for in-map
magnitudes is decided exactly by comparing squares. -/
def dist2 (a b : DisplayObj) : Int :=
  (b.x - a.x) * (b.x - a.x) + (b.y - a.y) * (b.y - a.y)

/-- Squared Euclidean distance from an object to coordinates
(`DisplayObj::distance`). -/
def distTile2 (o : DisplayObj) (x y : Int) : Int :=
  (x - o.x) * (x - o.x) + (y - o.y) * (y - o.y)

/-- Message log (`Messages` in `engine.rs`). -/
structure Messages where
  messages : List (String × Color)
deriving DecidableEq, Repr

def Messages.new : Messages := ⟨[]⟩

def Messages.add (m : Messages) (text : String) (color : Color) : Messages :=
  ⟨m.messages ++ [(text, color)]⟩

/-- Game settings (`GameSettings` in `engine.rs`). -/
structure GameSettings where
  screen_w : Int
  screen_h : Int
  map_w : Int
  map_h : Int
  room_max_size : Nat
  room_min_size : Nat
  max_rooms : Int
  max_room_monsters : Int
  dark_wall_color : Color
  light_wall_color : Color
  dark_ground_color : Color
  light_ground_color : Color
  fps_limit : Int
  fov_light_walls : Bool
  torch_radius : Int
  bar_w : Int
  panel_h : Int
  panel_y : Int
  msg_x : Int
  msg_w : Int
  msg_h : Int
deriving DecidableEq, Repr

/-- Default settings (`GameSettings::new`). -/
def GameSettings.new : GameSettings :=
  { screen_w := 80, screen_h := 50, map_w := 80, map_h := 43,
    room_max_size := 10, room_min_size := 6, max_rooms := 20,
    max_room_monsters := 6,
    dark_wall_color := ⟨35, 35, 35⟩, light_wall_color := ⟨55, 55, 55⟩,
    dark_ground_color := ⟨85, 75, 55⟩, light_ground_color := ⟨100, 90, 70⟩,
    fps_limit := 20, fov_light_walls := true, torch_radius := 10,
    bar_w := 20, panel_h := 7, panel_y := 43, msg_x := 22, msg_w := 58,
    msg_h := 6 }

/-- The map is a column-major grid of tiles (`type Map = Vec<Vec<Tile>>`). -/
abbrev GameMap : Type := List (List Tile)

/-- Full game state (`Game` in `engine.rs`). -/
structure Game where
  game_settings : GameSettings
  map : GameMap
  messages : Messages
  inventory : List DisplayObj
  dungeon_level : Nat
deriving DecidableEq

/-- Returns a list of equipped items (`DisplayObj::get_all_equipped`): only
the player draws bonuses from the inventory. -/
def DisplayObj.get_all_equipped (o : DisplayObj) (game : Game) :
    List Equipment :=
  if o.name = "player" then
    ((game.inventory.filter
        (fun item => (item.equipment.map (fun e => e.equipped)).getD false)).map
      (fun item => item.equipment)).reduceOption
  else
    []

/-- Equipment-inclusive maximum hp (`DisplayObj::max_hp`). -/
def DisplayObj.max_hp (o : DisplayObj) (game : Game) : Int :=
  (o.fighter.map (fun f => f.base_max_hp)).getD 0
    + ((o.get_all_equipped game).map (fun e => e.max_hp_bonus)).sum

/-- Equipment-inclusive attack power (`DisplayObj::power`). -/
def DisplayObj.power (o : DisplayObj) (game : Game) : Int :=
  (o.fighter.map (fun f => f.base_power)).getD 0
    + ((o.get_all_equipped game).map (fun e => e.power_bonus)).sum

/-- Equipment-inclusive defense (`DisplayObj::defense`). -/
def DisplayObj.defense (o : DisplayObj) (game : Game) : Int :=
  (o.fighter.map (fun f => f.base_defense)).getD 0
    + ((o.get_all_equipped game).map (fun e => e.defense_bonus)).sum

/-- Player-death callback (`player_death`). -/
def player_death (player : DisplayObj) (game : Game) : DisplayObj × Game :=
  let game := { game with messages := game.messages.add "You died!" RED }
  ({ player with char := '%', color := DARK_RED }, game)

/-- Monster-death callback (`monster_death`); the `.unwrap()` on the fighter
in the message format is guarded by the caller, which fires the callback
only when the fighter facet is present. -/
def monster_death (monster : DisplayObj) (game : Game) : DisplayObj × Game :=
  let xp := (monster.fighter.map (fun f => f.xp)).getD 0
  let msgs := game.messages.add
    (monster.name ++ " is dead! You gain " ++ toString xp
      ++ " experience points.") ORANGE
  let game := { game with messages := msgs }
  ({ monster with
      char := '%'
      color := DARK_RED
      blocks := false
      fighter := none
      ai := none
      name := "remains of " ++ monster.name }, game)

/-- Dispatch of the death callback (`DeathCallback::callback`). -/
def DeathCallback.callback (cb : DeathCallback) (object : DisplayObj)
    (game : Game) : DisplayObj × Game :=
  match cb with
  | DeathCallback.Player => player_death object game
  | DeathCallback.Monster => monster_death object game

/-- Apply damage if possible; on death fire the callback and return the xp
reward (`DisplayObj::take_damage`). -/
def DisplayObj.take_damage (o : DisplayObj) (damage : Int) (game : Game) :
    Option Nat × DisplayObj × Game :=
  let o :=
    match o.fighter with
    | some fighter =>
        if damage > 0 then
          { o with fighter := some { fighter with hp := fighter.hp - damage } }
        else o
    | none => o
  match o.fighter with
  | some fighter =>
      if fighter.hp ≤ 0 then
        let o := { o with alive := false }
        let (o, game) := fighter.on_death.callback o game
        (some fighter.xp, o, game)
      else (none, o, game)
  | none => (none, o, game)

/-- A simple formula for attack damage (`DisplayObj::attack`); the result is
`none` exactly when the source would panic (xp credit to an attacker with no
fighter facet). -/
def DisplayObj.attack (self : DisplayObj) (target : DisplayObj)
    (game : Game) : Option (DisplayObj × DisplayObj × Game) :=
  let damage := self.power game - target.defense game
  if damage > 0 then
    let msgs := game.messages.add
      (self.name ++ " attacks " ++ target.name ++ " for "
        ++ toString damage ++ " hit points.") WHITE
    let game := { game with messages := msgs }
    let td := target.take_damage damage game
    match td.1 with
    | some xp =>
        match self.fighter with
        | some f =>
            some ({ self with fighter := some { f with xp := f.xp + xp } },
              td.2.1, td.2.2)
        | none => none
    | none => some (self, td.2.1, td.2.2)
  else
    let msgs := game.messages.add
      (self.name ++ " attacks " ++ target.name ++ " but it has no effect!")
      WHITE
    some (self, target, { game with messages := msgs })

/-- Heal by the given amount, without going over the maximum
(`DisplayObj::heal`). -/
def DisplayObj.heal (o : DisplayObj) (amount : Int) (game : Game) :
    DisplayObj :=
  let maxHp := o.max_hp game
  match o.fighter with
  | some fighter =>
      let fighter := { fighter with hp := fighter.hp + amount }
      let fighter :=
        if fighter.hp > maxHp then { fighter with hp := maxHp } else fighter
      { o with fighter := some fighter }
  | none => o

/-- Equip object and show a message about it (`DisplayObj::equip`). -/
def DisplayObj.equip (o : DisplayObj) (messages : Messages) :
    DisplayObj × Messages :=
  if o.item = none then
    (o, messages.add ("Can't equip " ++ o.name ++ " because it's not an Item.")
      RED)
  else
    match o.equipment with
    | some equipment =>
        if equipment.equipped = false then
          ({ o with equipment := some { equipment with equipped := true } },
            messages.add ("Equipped " ++ o.name ++ ".") LIGHT_GREEN)
        else (o, messages)
    | none =>
        (o, messages.add
          ("Can't equip " ++ o.name ++ " because it's not an Equipment.") RED)

/-- Outcome of an item-effect function (`UseResult` in `engine.rs`). -/
inductive UseResult where
  | UsedUp
  | Cancelled
  | UsedAndKept
deriving DecidableEq, Repr

/-- A spawnable template loaded from the config document
(`ObjectConfiguration` in `conf.rs`). -/
structure ObjectConfiguration where
  name : String
  char : Char
  color : Color
  transition_table : List Transition
  fighter : Option Fighter
  ai : Option Ai
  item : Option Item
  equipment : Option Equipment
deriving DecidableEq, Repr

/-- Instantiate an entity from a template (`ObjectConfiguration::as_object`). -/
def ObjectConfiguration.as_object (c : ObjectConfiguration) (x y : Int) :
    DisplayObj :=
  let object := DisplayObj.new x y c.char c.name c.color true
  if c.fighter ≠ none then
    { object with fighter := c.fighter, ai := c.ai, alive := true }
  else if c.item ≠ none then
    { object with
        item := c.item
        equipment := c.equipment
        always_visible := true
        blocks := false }
  else object

/-- The spawn-table document (`TransitionTables` in `conf.rs`). -/
structure TransitionTables where
  max_monsters : List Transition
  max_items : List Transition
  monsters : List ObjectConfiguration
  items : List ObjectConfiguration
deriving DecidableEq, Repr

/-- The parts of the `Tcod` presentation state the engine core reads: the
field-of-view oracle and the optionally loaded spawn tables. -/
structure Tcod where
  fov : Int → Int → Bool
  tables : Option TransitionTables

/-- The thread RNG, as an explicit stream of draws. -/
abbrev Rng : Type := List Int

def rngNext (rng : Rng) : Int × Rng := (rng.headD 0, rng.tail)

/-- Model of `rand::thread_rng().gen_range(lo..hi)` on `i32`: panics (`none`)
on an empty range, otherwise yields a value of `[lo, hi)`; every value of
the range is reachable for a suitable stream draw. -/
def genRange (lo hi : Int) (rng : Rng) : Option (Int × Rng) :=
  if lo < hi then
    let (r, rng') := rngNext rng
    some (lo + Int.emod r (hi - lo), rng')
  else none

/-- Model of `gen_range(lo..hi)` on an unsigned range. -/
def genRangeNat (lo hi : Nat) (rng : Rng) : Option (Nat × Rng) :=
  if lo < hi then
    let (r, rng') := rngNext rng
    some (lo + r.natAbs % (hi - lo), rng')
  else none

/-- Model of `rand::random::<bool>()`. -/
def genBool (rng : Rng) : Bool × Rng :=
  let (r, rng') := rngNext rng
  (Int.emod r 2 == 0, rng')

/-- Read a map tile; `none` models the index panic of `map[x][y]` (a
negative coordinate cast with `as usize` is out of bounds as well). -/
def getTile (map : GameMap) (x y : Int) : Option Tile :=
  if x < 0 ∨ y < 0 then none
  else (map[x.toNat]?).bind (fun col => col[y.toNat]?)

/-- Write a map tile; `none` models the index panic on an out-of-bounds
write. -/
def setTile (map : GameMap) (x y : Int) (t : Tile) : Option GameMap :=
  if x < 0 ∨ y < 0 then none
  else
    match map[x.toNat]? with
    | none => none
    | some col =>
        match col[y.toNat]? with
        | none => none
        | some _ => some (map.set x.toNat (col.set y.toNat t))

/-- Tile or entity blocking test (`is_blocked` in `engine.rs`). -/
def is_blocked (x y : Int) (map : GameMap) (objects : List DisplayObj) :
    Option Bool :=
  match getTile map x y with
  | none => none
  | some t =>
      if t.blocked then some true
      else some (objects.any (fun object =>
        object.blocks && object.get_pos = (x, y)))

/-- Move an entity by a delta when the destination is free (`move_by`). -/
def move_by (id : Nat) (dx dy : Int) (map : GameMap)
    (objects : List DisplayObj) : Option (List DisplayObj) :=
  match objects[id]? with
  | none => none
  | some o =>
      let x := o.get_pos.1
      let y := o.get_pos.2
      match is_blocked (x + dx) (y + dy) map objects with
      | none => none
      | some true => some objects
      | some false => some (objects.set id (o.set_pos (x + dx) (y + dy)))

/-- A rectangular room (`Room` in `engine.rs`). -/
structure Room where
  x1 : Int
  y1 : Int
  x2 : Int
  y2 : Int
deriving DecidableEq, Repr

def Room.new (x y w h : Int) : Room := ⟨x, y, x + w, y + h⟩

/-- Room center; Rust `i32` division truncates toward zero (`Int.tdiv`). -/
def Room.center (r : Room) : Int × Int :=
  (Int.tdiv (r.x1 + r.x2) 2, Int.tdiv (r.y1 + r.y2) 2)

/-- Inclusive bounding-box intersection test (`Room::intersects_with`). -/
def Room.intersects_with (self other : Room) : Bool :=
  decide (self.x1 ≤ other.x2) && decide (self.x2 ≥ other.x1)
    && decide (self.y1 ≤ other.y2) && decide (self.y2 ≥ other.y1)

/-- The integer values of the half-open range `lo..hi`. -/
def intRange (lo hi : Int) : List Int :=
  (List.range (hi - lo).toNat).map (fun i => lo + Int.ofNat i)

/-- Carve the interior of a room to empty tiles (`create_room`). -/
def create_room (room : Room) (map : GameMap) : Option GameMap :=
  (intRange (room.x1 + 1) room.x2).foldlM
    (fun m x =>
      (intRange (room.y1 + 1) room.y2).foldlM
        (fun m y => setTile m x y Tile.empty) m)
    map

/-- Horizontal tunnel (`create_h_tunnel`). -/
def create_h_tunnel (x1 x2 y : Int) (map : GameMap) : Option GameMap :=
  (intRange (min x1 x2) (max x1 x2 + 1)).foldlM
    (fun m x => setTile m x y Tile.empty) map

/-- Vertical tunnel (`create_v_tunnel`). -/
def create_v_tunnel (y1 y2 x : Int) (map : GameMap) : Option GameMap :=
  (intRange (min y1 y2) (max y1 y2 + 1)).foldlM
    (fun m y => setTile m x y Tile.empty) map

/-- Model of `WeightedIndex::new(weights).unwrap()` for `u32` weights: the
constructor errors — so the unwrap panics — exactly when no weight is
positive (this covers the empty list). -/
def weightedIndexNew (weights : List Nat) : Option (List Nat) :=
  if weights.sum = 0 then none else some weights

/-- Walk the cumulative weights, as `WeightedIndex::sample` does; entries of
weight zero are never selected. -/
def pickWeighted : List Nat → Nat → Nat
  | [], _ => 0
  | w :: ws, u => if u < w then 0 else pickWeighted ws (u - w) + 1

/-- Model of `WeightedIndex::sample`: draw a value below the total weight
and select by cumulative walk. -/
def sampleWeighted (weights : List Nat) (rng : Rng) : Nat × Rng :=
  let (r, rng') := rngNext rng
  (pickWeighted weights (r.natAbs % weights.sum), rng')

/-- The spawn loop of `generate_objects`: draw a tile in the room interior,
silently skip blocked draws, otherwise instantiate a weighted-random
template. -/
def spawnLoop (choices : List Nat) (conf_data : List ObjectConfiguration)
    (room : Room) (map : GameMap) :
    Nat → List DisplayObj → Rng → Option (List DisplayObj × Rng)
  | 0, objects, rng => some (objects, rng)
  | n + 1, objects, rng =>
      match genRange (room.x1 + 1) room.x2 rng with
      | none => none
      | some (x, rng) =>
          match genRange (room.y1 + 1) room.y2 rng with
          | none => none
          | some (y, rng) =>
              match is_blocked x y map objects with
              | none => none
              | some true => spawnLoop choices conf_data room map n objects rng
              | some false =>
                  let sw := sampleWeighted choices rng
                  match conf_data[sw.1]? with
                  | none => none
                  | some object_data =>
                      spawnLoop choices conf_data room map n
                        (objects ++ [object_data.as_object x y]) sw.2

/-- Spawn a batch of objects from a template catalog (`generate_objects`). -/
def generate_objects (max_spawns : Nat)
    (conf_data : List ObjectConfiguration) (room : Room) (map : GameMap)
    (level : Nat) (objects : List DisplayObj) (rng : Rng) :
    Option (List DisplayObj × Rng) :=
  match genRangeNat 0 (max_spawns + 1) rng with
  | none => none
  | some (num_to_spawn, rng) =>
      let weights := conf_data.map
        (fun data => from_dungeon_level data.transition_table level)
      match weightedIndexNew weights with
      | none => none
      | some choices =>
          spawnLoop choices conf_data room map num_to_spawn objects rng

/-- Populate a room with monsters and items (`place_objects`); the
`tcod.tables.as_ref().unwrap()` panics — `none` — when no spawn tables were
loaded. -/
def place_objects (tcod : Tcod) (room : Room) (map : GameMap) (level : Nat)
    (objects : List DisplayObj) (rng : Rng) :
    Option (List DisplayObj × Rng) :=
  match tcod.tables with
  | none => none
  | some tables =>
      let max_spawn := from_dungeon_level tables.max_monsters level
      match generate_objects max_spawn tables.monsters room map level objects
          rng with
      | none => none
      | some (objects, rng) =>
          let max_spawn := from_dungeon_level tables.max_items level
          generate_objects max_spawn tables.items room map level objects rng

/-- The room-placement loop of `make_map`, one iteration per candidate
room. -/
def makeMapLoop (tcod : Tcod) (gs : GameSettings) (level : Nat) :
    Nat → GameMap → List DisplayObj → List Room → Rng →
    Option (GameMap × List DisplayObj × List Room × Rng)
  | 0, map, objects, rooms, rng => some (map, objects, rooms, rng)
  | n + 1, map, objects, rooms, rng =>
      match genRangeNat gs.room_min_size (gs.room_max_size + 1) rng with
      | none => none
      | some (w, rng) =>
      match genRangeNat gs.room_min_size (gs.room_max_size + 1) rng with
      | none => none
      | some (h, rng) =>
      match genRange 0 (gs.map_w - Int.ofNat w) rng with
      | none => none
      | some (x, rng) =>
      match genRange 0 (gs.map_h - Int.ofNat h) rng with
      | none => none
      | some (y, rng) =>
      let new_room := Room.new x y (Int.ofNat w) (Int.ofNat h)
      let failed := rooms.any
        (fun other_room => new_room.intersects_with other_room)
      if failed then makeMapLoop tcod gs level n map objects rooms rng
      else
        match create_room new_room map with
        | none => none
        | some map =>
            let new_x := new_room.center.1
            let new_y := new_room.center.2
            if rooms.isEmpty then
              match objects[PLAYER_ID]? with
              | none => none
              | some p =>
                  makeMapLoop tcod gs level n map
                    (objects.set PLAYER_ID (p.set_pos new_x new_y))
                    (rooms ++ [new_room]) rng
            else
              match place_objects tcod new_room map level objects rng with
              | none => none
              | some (objects, rng) =>
                  match rooms[rooms.length - 1]? with
                  | none => none
                  | some prev =>
                      let prev_x := prev.center.1
                      let prev_y := prev.center.2
                      let gb := genBool rng
                      let b := gb.1
                      let rng := gb.2
                      if b then
                        match create_h_tunnel prev_x new_x prev_y map with
                        | none => none
                        | some map =>
                            match create_v_tunnel prev_y new_y new_x map with
                            | none => none
                            | some map =>
                                makeMapLoop tcod gs level n map objects
                                  (rooms ++ [new_room]) rng
                      else
                        match create_v_tunnel prev_y new_y prev_x map with
                        | none => none
                        | some map =>
                            match create_h_tunnel prev_x new_x new_y map with
                            | none => none
                            | some map =>
                                makeMapLoop tcod gs level n map objects
                                  (rooms ++ [new_room]) rng

/-- Dungeon generation (`make_map`): wall-filled grid, candidate room loop,
then stairs at the center of the last room — `rooms[rooms.len() - 1]`
panics (`none`) when the accepted-room list is empty. -/
def make_map (tcod : Tcod) (objects : List DisplayObj) (gs : GameSettings)
    (level : Nat) (rng : Rng) :
    Option (GameMap × List DisplayObj × Rng) :=
  let map : GameMap :=
    List.replicate gs.map_w.toNat (List.replicate gs.map_h.toNat Tile.wall)
  match objects[PLAYER_ID]? with
  | none => none
  | some _ =>
      let objects := objects.take 1
      match makeMapLoop tcod gs level gs.max_rooms.toNat map objects [] rng
          with
      | none => none
      | some (map, objects, rooms, rng) =>
          match rooms[rooms.length - 1]? with
          | none => none
          | some last_room =>
              let last_room_x := last_room.center.1
              let last_room_y := last_room.center.2
              let stairs :=
                { DisplayObj.new last_room_x last_room_y '<' "stairs" WHITE
                    false with
                  always_visible := true }
              some (map, objects ++ [stairs], rng)

/-- Stair descent (`next_level`): heal the player by half their maximum hp,
bump the dungeon level, regenerate the map. -/
def next_level (tcod : Tcod) (game : Game) (objects : List DisplayObj)
    (rng : Rng) : Option (Game × List DisplayObj × Rng) :=
  let msgs := game.messages.add
    "You descend down further into the crypt, where will it end..." RED
  let game := { game with messages := msgs }
  match objects[PLAYER_ID]? with
  | none => none
  | some player =>
      let heal_hp := Int.tdiv (player.max_hp game) 2
      let objects := objects.set PLAYER_ID (player.heal heal_hp game)
      let game := { game with dungeon_level := game.dungeon_level + 1 }
      match make_map tcod objects game.game_settings game.dungeon_level rng
          with
      | none => none
      | some (map, objects, rng) =>
          some ({ game with map := map }, objects, rng)

/-- One component of the normalized step direction of `move_towards`: the
`f32` computation `(dx as f32 / distance).round() as i32` for a squared
distance `s = dx^2 + dy^2`.  For `s > 0` the quotient lies in `[-1, 1]` and
rounds away from zero at magnitude `1/2`, i.e. to `sign dx` iff
`4*dx^2 >= s`; for `s = 0` the quotient is NaN and `as i32` saturates to 0.
The tie `4*dx^2 = s` forces `dy^2 = 3*dx^2`, which has no nonzero integer
solutions, so `f32` rounding error never flips the comparison for in-map
magnitudes. -/
def roundDirComponent (dx s : Int) : Int :=
  if s = 0 then 0
  else if 4 * dx * dx ≥ s then (if dx > 0 then 1 else if dx < 0 then -1 else 0)
  else 0

/-- Step one tile toward a target (`move_towards`). -/
def move_towards (id : Nat) (target_x target_y : Int) (map : GameMap)
    (objects : List DisplayObj) : Option (List DisplayObj) :=
  match objects[id]? with
  | none => none
  | some o =>
      let dx := target_x - o.x
      let dy := target_y - o.y
      let s := dx * dx + dy * dy
      move_by id (roundDirComponent dx s) (roundDirComponent dy s) map objects

/-- Basic monster AI (`ai_basic`); `mut_two` asserts that the two borrowed
indices are distinct, which panics when the "monster" is the player. -/
def ai_basic (monster_id : Nat) (tcod : Tcod) (game : Game)
    (objects : List DisplayObj) : Option (Game × List DisplayObj × Ai) :=
  match objects[monster_id]? with
  | none => none
  | some monster =>
      let monster_x := monster.get_pos.1
      let monster_y := monster.get_pos.2
      if tcod.fov monster_x monster_y then
        match objects[PLAYER_ID]? with
        | none => none
        | some player =>
            if dist2 monster player ≥ 4 then
              match move_towards monster_id player.x player.y game.map
                  objects with
              | none => none
              | some objects => some (game, objects, Ai.Basic)
            else if (player.fighter.map (fun f => decide (f.hp > 0))).getD
                false then
              if monster_id = PLAYER_ID then none
              else
                match monster.attack player game with
                | none => none
                | some (monster, player, game) =>
                    some (game,
                      (objects.set monster_id monster).set PLAYER_ID player,
                      Ai.Basic)
            else some (game, objects, Ai.Basic)
      else some (game, objects, Ai.Basic)

/-- Confused monster AI (`ai_confused`): while the counter is nonnegative,
move by a random offset of `{-1,0,1}^2` and decrement; once it is negative,
restore the previous AI with a log message. -/
def ai_confused (monster_id : Nat) (game : Game) (objects : List DisplayObj)
    (rng : Rng) (previous_ai : Ai) (num_turns : Int) :
    Option (Game × List DisplayObj × Rng × Ai) :=
  if num_turns ≥ 0 then
    match genRange (-1) 2 rng with
    | none => none
    | some (dx, rng) =>
        match genRange (-1) 2 rng with
        | none => none
        | some (dy, rng) =>
            match move_by monster_id dx dy game.map objects with
            | none => none
            | some objects =>
                some (game, objects, rng,
                  Ai.Confused previous_ai (num_turns - 1))
  else
    match objects[monster_id]? with
    | none => none
    | some monster =>
        let msgs := game.messages.add
          ("The " ++ monster.name ++ " is no longer confused!") RED
        some ({ game with messages := msgs }, objects, rng, previous_ai)

/-- One AI resolution (`ai_take_turn`): take the AI value out, dispatch on
it, and store the replacement AI. -/
def ai_take_turn (monster_id : Nat) (tcod : Tcod) (game : Game)
    (objects : List DisplayObj) (rng : Rng) :
    Option (Game × List DisplayObj × Rng) :=
  match objects[monster_id]? with
  | none => none
  | some monster =>
      match monster.ai with
      | none => some (game, objects, rng)
      | some ai =>
          let objects := objects.set monster_id { monster with ai := none }
          let step : Option (Game × List DisplayObj × Rng × Ai) :=
            match ai with
            | Ai.Basic =>
                (ai_basic monster_id tcod game objects).map
                  (fun r => (r.1, r.2.1, rng, r.2.2))
            | Ai.Confused previous_ai num_turns =>
                ai_confused monster_id game objects rng previous_ai num_turns
          match step with
          | none => none
          | some (game, objects, rng, new_ai) =>
              match objects[monster_id]? with
              | none => none
              | some m =>
                  some (game,
                    objects.set monster_id { m with ai := some new_ai }, rng)

/-- The enumeration loop of `closest_monster`, tracking the current best
candidate and its (squared) distance bound. -/
def closestLoop (tcod : Tcod) (player : DisplayObj) :
    List DisplayObj → Nat → Option Nat → Int → Option Nat
  | [], _, closest_enemy, _ => closest_enemy
  | object :: rest, id, closest_enemy, closest_d2 =>
      if id ≠ PLAYER_ID ∧ object.fighter.isSome = true
          ∧ object.ai.isSome = true ∧ tcod.fov object.x object.y = true then
        let d := dist2 player object
        if d < closest_d2 then
          closestLoop tcod player rest (id + 1) (some id) d
        else closestLoop tcod player rest (id + 1) closest_enemy closest_d2
      else closestLoop tcod player rest (id + 1) closest_enemy closest_d2

/-- Find the closest enemy, up to a maximum range, and in the player's FOV
(`closest_monster`); the initial bound is `(max_range + 1) as f32`, so the
comparison of squared distances starts from `(max_range + 1)^2`. -/
def closest_monster (tcod : Tcod) (objects : List DisplayObj)
    (max_range : Int) : Option Nat :=
  match objects.head? with
  | none => none
  | some player =>
      closestLoop tcod player objects 0 none
        ((max_range + 1) * (max_range + 1))

def lightningMsg (monster : DisplayObj) : String :=
  "A lightning bolt strikes the " ++ monster.name
    ++ " with a loud thunder! The damage is "
    ++ toString LIGHTNING_DAMAGE ++ " hit points."

/-- Lightning effect (`cast_lightning`). -/
def cast_lightning (tcod : Tcod) (game : Game) (objects : List DisplayObj) :
    Option (UseResult × Game × List DisplayObj) :=
  match closest_monster tcod objects LIGHTNING_RANGE with
  | some monster_id =>
      match objects[monster_id]? with
      | none => none
      | some monster =>
          let msgs := game.messages.add (lightningMsg monster) LIGHT_BLUE
          let game := { game with messages := msgs }
          let td := monster.take_damage LIGHTNING_DAMAGE game
          let game := td.2.2
          let objects := objects.set monster_id td.2.1
          match td.1 with
          | some xp =>
              match objects[PLAYER_ID]? with
              | none => none
              | some p =>
                  match p.fighter with
                  | none => none
                  | some pf =>
                      let pf := { pf with xp := pf.xp + xp }
                      let p := { p with fighter := some pf }
                      some (UseResult.UsedUp, game,
                        objects.set PLAYER_ID p)
          | none => some (UseResult.UsedUp, game, objects)
  | none =>
      let msgs := game.messages.add "No enemy is close enough to strike." RED
      some (UseResult.Cancelled, { game with messages := msgs }, objects)

/-- Confuse effect (`cast_confuse`); the interactive `target_monster`
selection is an external collaborator, its outcome is the
`monsterChoice` parameter. -/
def cast_confuse (monsterChoice : Option Nat) (game : Game)
    (objects : List DisplayObj) :
    Option (UseResult × Game × List DisplayObj) :=
  let msgs := game.messages.add
    "Left-click an enemy to confuse it, or right-click to cancel." LIGHT_CYAN
  let game := { game with messages := msgs }
  match monsterChoice with
  | some monster_id =>
      match objects[monster_id]? with
      | none => none
      | some monster =>
          let old_ai := monster.ai.getD Ai.Basic
          let monster :=
            { monster with ai := some (Ai.Confused old_ai CONFUSE_NUM_TURNS) }
          let objects := objects.set monster_id monster
          let msgs := game.messages.add
            ("The eyes of " ++ monster.name
              ++ " look vacant, as he starts to stumble around!") LIGHT_GREEN
          some (UseResult.UsedUp, { game with messages := msgs }, objects)
  | none =>
      let msgs := game.messages.add "No enemy is close enough to strike." RED
      some (UseResult.Cancelled, { game with messages := msgs }, objects)

def fireballMsg (obj : DisplayObj) : String :=
  "The " ++ obj.name ++ " gets burned for " ++ toString FIREBALL_DAMAGE
    ++ " hit points"

/-- The burn loop of `cast_fireball` over the enumerated entity list,
threading the message log and the xp accumulator. -/
def fireballLoop (x y : Int) :
    Nat → List DisplayObj → Game → Nat → List DisplayObj × Game × Nat
  | _, [], game, xp_to_gain => ([], game, xp_to_gain)
  | id, obj :: rest, game, xp_to_gain =>
      if distTile2 obj x y ≤ FIREBALL_RADIUS * FIREBALL_RADIUS
          ∧ obj.fighter.isSome = true then
        let game := { game with
          messages := game.messages.add (fireballMsg obj) ORANGE }
        let td := obj.take_damage FIREBALL_DAMAGE game
        let xp_to_gain :=
          match td.1 with
          | some xp =>
              if id ≠ PLAYER_ID then xp_to_gain + xp else xp_to_gain
          | none => xp_to_gain
        let rec1 := fireballLoop x y (id + 1) rest td.2.2 xp_to_gain
        (td.2.1 :: rec1.1, rec1.2.1, rec1.2.2)
      else
        let rec1 := fireballLoop x y (id + 1) rest game xp_to_gain
        (obj :: rec1.1, rec1.2.1, rec1.2.2)

/-- Core of `cast_fireball` after target selection and the explosion
message: run the burn loop and credit the accumulated xp to the player. -/
def cast_fireball_at (x y : Int) (game : Game)
    (objects : List DisplayObj) :
    Option (UseResult × Game × List DisplayObj) :=
  let res := fireballLoop x y 0 objects game 0
  let objects := res.1
  let game := res.2.1
  let xp_to_gain := res.2.2
  if xp_to_gain > 0 then
        match objects[PLAYER_ID]? with
        | none => none
        | some p =>
            match p.fighter with
            | none => none
            | some pf =>
                let pf := { pf with xp := pf.xp + xp_to_gain }
                let p := { p with fighter := some pf }
                some (UseResult.UsedUp, game, objects.set PLAYER_ID p)
      else some (UseResult.UsedUp, game, objects)

/-- Fireball effect (`cast_fireball`); the interactive `target_tile`
selection is an external collaborator, its outcome is the `tileChoice`
parameter. -/
def cast_fireball (tileChoice : Option (Int × Int)) (game : Game)
    (objects : List DisplayObj) :
    Option (UseResult × Game × List DisplayObj) :=
  let msgs := game.messages.add
    "Left-click a target tile to strike, right-click to cancel." LIGHTER_CYAN
  let game := { game with messages := msgs }
  match tileChoice with
  | none => some (UseResult.Cancelled, game, objects)
  | some (x, y) =>
      let msgs := game.messages.add
        ("The fireball explodes, burning everything within "
          ++ toString FIREBALL_RADIUS ++ " tiles") ORANGE
      let game := { game with messages := msgs }
      cast_fireball_at x y game objects

/-- First inventory index holding an equipped item of the given slot
(`get_equipped_in_slot`). -/
def get_equipped_in_slot (slot : Slot) (inventory : List DisplayObj) :
    Option Nat :=
  inventory.findIdx? (fun item =>
    (item.equipment.map (fun e => e.equipped && e.slot == slot)).getD false)

/-- `Vec::swap_remove`: replace the removed slot with the last element. -/
def swapRemove (l : List DisplayObj) (i : Nat) : List DisplayObj :=
  match l.getLast? with
  | none => l
  | some last => (l.set i last).dropLast

/-- Pick up an item from the floor (`pick_item_up`): fail with a message on
a full inventory, otherwise move the entity into the inventory and
auto-equip it when its slot is free. -/
def pick_item_up (object_id : Nat) (game : Game)
    (objects : List DisplayObj) : Option (Game × List DisplayObj) :=
  if game.inventory.length ≥ MAX_INV_SPACE then
    match objects[object_id]? with
    | none => none
    | some o =>
        let msgs := game.messages.add
          ("Inventory full, cannot pick up " ++ o.name ++ ".") RED
        some ({ game with messages := msgs }, objects)
  else
    match objects[object_id]? with
    | none => none
    | some item =>
        let objects := swapRemove objects object_id
        let msgs := game.messages.add
          ("You picked up a " ++ item.name ++ "!") GREEN
        let game := { game with messages := msgs }
        let index := game.inventory.length
        let slot := item.equipment.map (fun e => e.slot)
        let game := { game with inventory := game.inventory ++ [item] }
        match slot with
        | some slot =>
            if get_equipped_in_slot slot game.inventory = none then
              match game.inventory[index]? with
              | none => none
              | some it =>
                  let eq1 := it.equip game.messages
                  some ({ game with
                            inventory := game.inventory.set index eq1.1
                            messages := eq1.2 }, objects)
            else some (game, objects)
        | none => some (game, objects)

/-! ## General helper lemmas -/

theorem find?_eq_head?_filter {α : Type} (p : α → Bool) (l : List α) :
    l.find? p = (l.filter p).head? := by
  induction l with
  | nil => rfl
  | cons a t ih =>
      rw [List.find?_cons, List.filter_cons]
      cases h : p a
      · simpa using ih
      · simp

theorem rev_find?_eq_filter_getLast? (p : Transition → Bool)
    (l : List Transition) : l.reverse.find? p = (l.filter p).getLast? := by
  rw [find?_eq_head?_filter, List.filter_reverse, List.head?_reverse]

/-! ## C7: level-gated table lookup -/

/-- Specification-side table lookup: the value of the last entry whose
level is at most the query level, defaulting to 0 when no entry
qualifies. -/
def lastEntryLookup (table : List Transition) (level : Nat) : Nat :=
  (((table.filter (fun t => t.level ≤ level)).getLast?).map
    (fun t => t.value)).getD 0

/-- A transition table sorted ascending by level. -/
def SortedByLevel (table : List Transition) : Prop :=
  table.Pairwise (fun a b => a.level ≤ b.level)

def exampleTable : List Transition := [⟨1, 5⟩, ⟨4, 10⟩, ⟨7, 2⟩]

/-- C7: for every transition table sorted ascending by level and every
query level, `from_dungeon_level` returns the value of the last entry
whose level is at most the query level, and 0 when no entry qualifies;
in particular for the table `[(1,5),(4,10),(7,2)]`, level 3 maps to 5,
level 4 to 10, level 10 to 2 and level 0 to 0. -/
theorem C7_from_dungeon_level_last_entry :
    (∀ (table : List Transition) (level : Nat), SortedByLevel table →
      from_dungeon_level table level = lastEntryLookup table level)
    ∧ from_dungeon_level exampleTable 3 = 5
    ∧ from_dungeon_level exampleTable 4 = 10
    ∧ from_dungeon_level exampleTable 10 = 2
    ∧ from_dungeon_level exampleTable 0 = 0 := by
  refine ⟨?_, by decide, by decide, by decide, by decide⟩
  intro table level _
  unfold from_dungeon_level lastEntryLookup
  rw [rev_find?_eq_filter_getLast?]

/-- Witness for C7 at the concrete table of the claim. -/
theorem C7_witness :
    SortedByLevel exampleTable
    ∧ from_dungeon_level exampleTable 3 = lastEntryLookup exampleTable 3 :=
  ⟨by simp [SortedByLevel, exampleTable, List.pairwise_cons],
    C7_from_dungeon_level_last_entry.1 exampleTable 3
      (by simp [SortedByLevel, exampleTable, List.pairwise_cons])⟩

/-! ## C10: spawn generation requires a positive template weight -/

/-- C10: `generate_objects` panics — `WeightedIndex::new(..).unwrap()`
fails — whenever every configured template's level-gated weight is 0 at the
current dungeon level (the empty template list included), for every RNG
outcome (in particular even when the drawn spawn count is 0); it completes
normally only when at least one template has a positive weight. -/
theorem C10_generate_objects_needs_positive_weight :
    (∀ (max_spawns : Nat) (conf_data : List ObjectConfiguration)
        (room : Room) (map : GameMap) (level : Nat)
        (objects : List DisplayObj) (rng : Rng),
      (∀ d ∈ conf_data, from_dungeon_level d.transition_table level = 0) →
      generate_objects max_spawns conf_data room map level objects rng
        = none)
    ∧ (∀ (max_spawns : Nat) (conf_data : List ObjectConfiguration)
        (room : Room) (map : GameMap) (level : Nat)
        (objects : List DisplayObj) (rng : Rng)
        (res : List DisplayObj × Rng),
      generate_objects max_spawns conf_data room map level objects rng
        = some res →
      ∃ d ∈ conf_data, 0 < from_dungeon_level d.transition_table level) := by
  have part1 : ∀ (max_spawns : Nat) (conf_data : List ObjectConfiguration)
      (room : Room) (map : GameMap) (level : Nat)
      (objects : List DisplayObj) (rng : Rng),
      (∀ d ∈ conf_data, from_dungeon_level d.transition_table level = 0) →
      generate_objects max_spawns conf_data room map level objects rng
        = none := by
    intro max_spawns conf_data room map level objects rng hzero
    unfold generate_objects
    have hgen : genRangeNat 0 (max_spawns + 1) rng
        = some (0 + (rngNext rng).1.natAbs % (max_spawns + 1),
            (rngNext rng).2) := by
      unfold genRangeNat
      simp
    rw [hgen]
    have hsum : (conf_data.map
        (fun data => from_dungeon_level data.transition_table level)).sum
          = 0 := by
      rw [List.sum_eq_zero_iff]
      intro w hw
      obtain ⟨d, hd, rfl⟩ := List.mem_map.mp hw
      exact hzero d hd
    simp [weightedIndexNew, hsum]
  refine ⟨part1, ?_⟩
  intro max_spawns conf_data room map level objects rng res hsome
  by_contra hno
  push_neg at hno
  have hzero : ∀ d ∈ conf_data,
      from_dungeon_level d.transition_table level = 0 := by
    intro d hd
    exact Nat.eq_zero_of_not_pos (by exact fun hpos => absurd hpos (by
      simpa using hno d hd))
  rw [part1 max_spawns conf_data room map level objects rng hzero] at hsome
  exact Option.noConfusion hsome

/-- Witness for C10: the empty template catalog aborts spawning even with a
positive cap. -/
theorem C10_witness :
    (∀ d ∈ ([] : List ObjectConfiguration),
      from_dungeon_level d.transition_table 1 = 0)
    ∧ generate_objects 5 [] (Room.new 1 1 4 4) [] 1 [] [] = none :=
  ⟨by simp, C10_generate_objects_needs_positive_weight.1 5 []
    (Room.new 1 1 4 4) [] 1 [] [] (by simp)⟩

/-! ## C2: behaviour when the spawn-table config is missing -/

/-- C2: with no loaded spawn tables (missing or malformed `settings.json`),
`place_objects` panics on `tcod.tables.as_ref().unwrap()` for every room,
map, level, entity list and RNG outcome — dungeon generation does not
proceed with empty spawn tables. -/
theorem C2_place_objects_panics_on_missing_tables
    (fov : Int → Int → Bool) (room : Room) (map : GameMap) (level : Nat)
    (objects : List DisplayObj) (rng : Rng) :
    place_objects { fov := fov, tables := none } room map level objects rng
      = none := rfl

/-! ## C3: map generation with zero accepted rooms -/

/-- C3 (amended): whenever zero rooms can be accepted because the candidate
loop runs no iterations (`max_rooms <= 0`), `make_map` does not return a
player-only stairs-less state: it panics (`rooms[rooms.len() - 1]` on an
empty room list) for every entity list, level and RNG outcome. -/
theorem C3_make_map_panics_on_zero_rooms (tcod : Tcod)
    (objects : List DisplayObj) (gs : GameSettings) (level : Nat) (rng : Rng)
    (h : gs.max_rooms ≤ 0) :
    make_map tcod objects gs level rng = none := by
  unfold make_map
  rw [Int.toNat_of_nonpos h]
  cases hobj : objects[PLAYER_ID]? with
  | none => rfl
  | some p => simp [makeMapLoop]

def zeroRoomSettings : GameSettings :=
  { GameSettings.new with max_rooms := 0, map_w := 3, map_h := 3 }

def playerFighter : Fighter :=
  { base_max_hp := 100, hp := 100, base_defense := 1, base_power := 3,
    xp := 0, on_death := DeathCallback.Player }

def simplePlayer : DisplayObj :=
  { DisplayObj.new 1 1 '@' "player" WHITE true with
    alive := true
    fighter := some playerFighter }

/-- Counterexample for C3 as stated: with settings accepting zero rooms,
`make_map` panics instead of returning the promised player-only state. -/
theorem C3_counterexample :
    make_map { fov := fun _ _ => true, tables := none } [simplePlayer]
      zeroRoomSettings 1 [] = none := by rfl

/-- Witness for C3's amended statement at a concrete input. -/
theorem C3_witness :
    zeroRoomSettings.max_rooms ≤ 0
    ∧ make_map { fov := fun _ _ => false, tables := none } [simplePlayer]
        zeroRoomSettings 2 [3, 1, 4] = none :=
  ⟨by decide, C3_make_map_panics_on_zero_rooms _ _ _ _ _ (by decide)⟩

/-! ## C1: damage application and death flagging -/

/-- Characterization of `take_damage` on an entity with a fighter facet:
the effective damage is `max 0 d`, death processing fires exactly when the
resulting hp is nonpositive, and only the monster callback strips the
fighter facet. -/
theorem take_damage_spec (o : DisplayObj) (d : Int) (g : Game) (f : Fighter)
    (hf : o.fighter = some f) :
    (o.take_damage d g).1
        = (if f.hp - max 0 d ≤ 0 then some f.xp else none)
    ∧ ((o.take_damage d g).2.1).alive
        = (if f.hp - max 0 d ≤ 0 then false else o.alive)
    ∧ ((o.take_damage d g).2.1).fighter
        = (if f.hp - max 0 d ≤ 0 ∧ f.on_death = DeathCallback.Monster
           then none else some { f with hp := f.hp - max 0 d }) := by
  obtain ⟨x, y, ch, co, nm, bl, al, av, fi, aist, itm, lv, eqp⟩ := o
  simp only at hf
  subst hf
  by_cases hd : 0 < d
  · have hm : max 0 d = d := by omega
    rw [hm]
    by_cases hhp : f.hp - d ≤ 0
    · cases hcb : f.on_death with
      | Player =>
          simp [DisplayObj.take_damage, hd, hhp, hcb,
            DeathCallback.callback, player_death]
      | Monster =>
          simp [DisplayObj.take_damage, hd, hhp, hcb,
            DeathCallback.callback, monster_death]
    · simp [DisplayObj.take_damage, hd, hhp]
  · have hm : max 0 d = 0 := by omega
    rw [hm]
    have hd' : ¬ d > 0 := hd
    by_cases hhp : f.hp ≤ 0
    · cases hcb : f.on_death with
      | Player =>
          simp [DisplayObj.take_damage, hd', hhp, hcb,
            DeathCallback.callback, player_death]
          rw [← hcb]
      | Monster =>
          simp [DisplayObj.take_damage, hd', hhp, hcb,
            DeathCallback.callback, monster_death]
    · simp [DisplayObj.take_damage, hd', hhp]

/-- C1: applying damage `d = max(0, attacker.power - defender.defense)`
(stats equipment-inclusive) via `attack`/`take_damage` leaves the
defender's hp equal to `hp_before - d` (unchanged, with a "no effect"
message, when `power - defense <= 0`), and an alive entity has
`alive = false` after `take_damage` iff its resulting hp is nonpositive. -/
theorem C1_damage_formula (g : Game) :
    (∀ (o : DisplayObj) (d : Int) (f : Fighter),
      o.fighter = some f → o.alive = true →
      (∀ f', ((o.take_damage d g).2.1).fighter = some f' →
          f'.hp = f.hp - max 0 d)
      ∧ (((o.take_damage d g).2.1).alive = false ↔ f.hp - max 0 d ≤ 0))
    ∧ (∀ (att tgt : DisplayObj) (fa ft : Fighter),
      att.fighter = some fa → tgt.fighter = some ft → tgt.alive = true →
      ∃ att' tgt' g', att.attack tgt g = some (att', tgt', g')
        ∧ (∀ f', tgt'.fighter = some f' →
            f'.hp = ft.hp - max 0 (att.power g - tgt.defense g))
        ∧ (0 < att.power g - tgt.defense g →
            (tgt'.alive = false ↔
              ft.hp - (att.power g - tgt.defense g) ≤ 0))
        ∧ (att.power g - tgt.defense g ≤ 0 →
            tgt' = tgt ∧ g'.messages = g.messages.add
              (att.name ++ " attacks " ++ tgt.name
                ++ " but it has no effect!") WHITE)) := by
  have base : ∀ (gg : Game) (o : DisplayObj) (d : Int) (f : Fighter),
      o.fighter = some f → o.alive = true →
      (∀ f', ((o.take_damage d gg).2.1).fighter = some f' →
          f'.hp = f.hp - max 0 d)
      ∧ (((o.take_damage d gg).2.1).alive = false ↔ f.hp - max 0 d ≤ 0) := by
    intro gg o d f hf halive
    obtain ⟨_, halive', hfighter⟩ := take_damage_spec o d gg f hf
    constructor
    · intro f' hf'
      rw [hfighter] at hf'
      split_ifs at hf' with hcond
      all_goals
        first
          | exact Option.noConfusion hf'
          | (rw [Option.some_inj] at hf'; rw [← hf'])
    · rw [halive']
      split_ifs with hcond
      · simp [hcond]
      · simp [halive, hcond]
  constructor
  · exact base g
  · intro att tgt fa ft hfa hft halive
    by_cases hdmg : 0 < att.power g - tgt.defense g
    · unfold DisplayObj.attack
      rw [if_pos (show att.power g - tgt.defense g > 0 from hdmg)]
      dsimp only
      rw [(take_damage_spec tgt (att.power g - tgt.defense g) _ ft hft).1]
      have hm : max 0 (att.power g - tgt.defense g)
          = att.power g - tgt.defense g := by omega
      by_cases hkill : ft.hp - max 0 (att.power g - tgt.defense g) ≤ 0
      · rw [if_pos hkill]
        simp only [hfa]
        refine ⟨_, _, _, rfl, ?_, ?_, ?_⟩
        · exact (base _ tgt _ ft hft halive).1
        · intro _
          have h2 := (base { g with messages := g.messages.add (att.name ++ " attacks " ++ tgt.name ++ " for " ++ toString (att.power g - tgt.defense g) ++ " hit points.") WHITE } tgt (att.power g - tgt.defense g) ft hft halive).2
          rw [hm] at h2
          exact h2
        · intro hle
          exact absurd hdmg (by omega)
      · rw [if_neg hkill]
        refine ⟨_, _, _, rfl, ?_, ?_, ?_⟩
        · exact (base _ tgt _ ft hft halive).1
        · intro _
          have h2 := (base { g with messages := g.messages.add (att.name ++ " attacks " ++ tgt.name ++ " for " ++ toString (att.power g - tgt.defense g) ++ " hit points.") WHITE } tgt (att.power g - tgt.defense g) ft hft halive).2
          rw [hm] at h2
          exact h2
        · intro hle
          exact absurd hdmg (by omega)
    · unfold DisplayObj.attack
      rw [if_neg (show ¬ att.power g - tgt.defense g > 0 from hdmg)]
      refine ⟨att, tgt, _, rfl, ?_, ?_, ?_⟩
      · intro f' hf'
        rw [hft, Option.some_inj] at hf'
        rw [← hf']
        omega
      · intro hpos
        exact absurd hpos (by omega)
      · intro _
        exact ⟨rfl, rfl⟩

def dummyGame : Game :=
  { game_settings := GameSettings.new, map := [], messages := Messages.new,
    inventory := [], dungeon_level := 1 }

def orcFighter : Fighter :=
  { base_max_hp := 20, hp := 20, base_defense := 0, base_power := 4,
    xp := 35, on_death := DeathCallback.Monster }

def simpleOrc : DisplayObj :=
  { DisplayObj.new 2 1 'o' "orc" GREEN true with
    alive := true
    ai := some Ai.Basic
    fighter := some orcFighter }

/-- Witness for C1 at a concrete attacker/defender pair. -/
theorem C1_witness :
    (simplePlayer.fighter = some playerFighter
      ∧ simplePlayer.alive = true)
    ∧ ((∀ f', ((simplePlayer.take_damage 5 dummyGame).2.1).fighter = some f' →
          f'.hp = playerFighter.hp - max 0 5)
      ∧ (((simplePlayer.take_damage 5 dummyGame).2.1).alive = false
          ↔ playerFighter.hp - max 0 5 ≤ 0)) := by
  refine ⟨⟨rfl, rfl⟩, ?_⟩
  exact (C1_damage_formula dummyGame).1 simplePlayer 5 playerFighter rfl rfl

/-! ## C4: confusion counter and AI restoration -/

/-- Iterated AI resolutions of one monster (`ai_take_turn` driven by the
`play_game` loop). -/
def iterResolve (tcod : Tcod) (monster_id : Nat) :
    Nat → Game × List DisplayObj × Rng →
    Option (Game × List DisplayObj × Rng)
  | 0, st => some st
  | k + 1, st =>
      (ai_take_turn monster_id tcod st.1 st.2.1 st.2.2).bind
        (iterResolve tcod monster_id k)

theorem genRange_m1_2 (r : Rng) :
    genRange (-1) 2 r = some (-1 + Int.emod (r.headD 0) 3, r.tail) := by
  unfold genRange rngNext
  norm_num

/-- One `ai_take_turn` resolution of a monster whose AI is
`Confused prev nt`: the game state is untouched while the counter is
nonnegative (the monster only moves and the counter decrements), and once
the counter is negative the previous AI is restored with a log message. -/
theorem ai_take_turn_confused (tcod : Tcod) (mid : Nat) (g : Game)
    (objs : List DisplayObj) (rng : Rng) (prev : Ai) (nt : Int)
    (monster : DisplayObj) (hm : objs[mid]? = some monster)
    (hai : monster.ai = some (Ai.Confused prev nt)) :
    ∀ g' objs' rng',
      ai_take_turn mid tcod g objs rng = some (g', objs', rng') →
      (∃ m', objs'[mid]? = some m'
        ∧ m'.ai = some (if 0 ≤ nt then Ai.Confused prev (nt - 1) else prev)
        ∧ m'.name = monster.name)
      ∧ objs'.length = objs.length
      ∧ (0 ≤ nt → g' = g)
      ∧ (nt < 0 → g'.messages = g.messages.add
          ("The " ++ monster.name ++ " is no longer confused!") RED) := by
  intro g' objs' rng' h
  have hlen : mid < objs.length := (List.getElem?_eq_some.mp hm).1
  have hlen' : mid < (objs.set mid { monster with ai := none }).length := by
    simpa using hlen
  simp only [ai_take_turn, hm, hai] at h
  by_cases hnt : 0 ≤ nt
  · rw [ai_confused, if_pos (show nt ≥ 0 from hnt)] at h
    rw [genRange_m1_2] at h
    simp only [] at h
    rw [genRange_m1_2] at h
    simp only [move_by] at h
    rw [List.getElem?_set_eq_of_lt { monster with ai := none } hlen] at h
    simp only [DisplayObj.get_pos] at h
    cases hb : is_blocked (monster.x + (-1 + Int.emod (rng.headD 0) 3))
        (monster.y + (-1 + Int.emod (rng.tail.headD 0) 3)) g.map
        (objs.set mid { monster with ai := none }) with
    | none =>
        rw [hb] at h
        exact Option.noConfusion h
    | some b =>
        rw [hb] at h
        cases b with
        | true =>
            simp only [] at h
            rw [List.getElem?_set_eq_of_lt { monster with ai := none }
              hlen] at h
            simp only [Option.some_inj, Prod.mk.injEq] at h
            obtain ⟨hg, hobjs, hrng⟩ := h
            subst hg
            subst hrng
            rw [← hobjs]
            refine ⟨⟨_, List.getElem?_set_eq_of_lt _ hlen', ?_, rfl⟩, by simp,
              fun _ => rfl, fun hlt => absurd hlt (by omega)⟩
            simp [hnt]
        | false =>
            simp only [] at h
            rw [List.getElem?_set_eq_of_lt
              (({ monster with ai := none } : DisplayObj).set_pos
                (monster.x + (-1 + Int.emod (rng.headD 0) 3))
                (monster.y + (-1 + Int.emod (rng.tail.headD 0) 3)))
              hlen'] at h
            simp only [Option.some_inj, Prod.mk.injEq] at h
            obtain ⟨hg, hobjs, hrng⟩ := h
            subst hg
            subst hrng
            rw [← hobjs]
            refine ⟨⟨_, List.getElem?_set_eq_of_lt _ (by simpa using hlen),
              ?_, rfl⟩, by simp, fun _ => rfl,
              fun hlt => absurd hlt (by omega)⟩
            simp [hnt]
  · rw [ai_confused, if_neg (show ¬ nt ≥ 0 from hnt)] at h
    simp only [List.getElem?_set_eq_of_lt
      ({ monster with ai := none } : DisplayObj) hlen] at h
    simp only [Option.some_inj, Prod.mk.injEq] at h
    obtain ⟨hg, hobjs, hrng⟩ := h
    subst hrng
    rw [← hobjs, ← hg]
    refine ⟨⟨_, List.getElem?_set_eq_of_lt _ hlen', ?_, rfl⟩, by simp,
      fun hge => absurd hge (by omega), fun _ => rfl⟩
    simp [hnt]

/-- While the counter is nonnegative, `k` successful resolutions of a
confused monster leave the game state untouched and decrement the counter
to `nt - k`, the monster staying confused. -/
theorem iterResolve_confused (tcod : Tcod) (mid : Nat) :
    ∀ (k : Nat) (g : Game) (objs : List DisplayObj) (rng : Rng) (prev : Ai)
      (nt : Int) (monster : DisplayObj),
      objs[mid]? = some monster →
      monster.ai = some (Ai.Confused prev nt) →
      0 ≤ nt → (k : Int) ≤ nt + 1 →
      ∀ st', iterResolve tcod mid k (g, objs, rng) = some st' →
        (∃ m', st'.2.1[mid]? = some m'
          ∧ m'.ai = some (Ai.Confused prev (nt - k))
          ∧ m'.name = monster.name)
        ∧ st'.1 = g := by
  intro k
  induction k with
  | zero =>
      intro g objs rng prev nt monster hm hai hnt hk st' hit
      simp only [iterResolve, Option.some_inj] at hit
      subst hit
      exact ⟨⟨monster, hm, by simpa using hai, rfl⟩, rfl⟩
  | succ k ih =>
      intro g objs rng prev nt monster hm hai hnt hk st' hit
      simp only [iterResolve] at hit
      cases hstep : ai_take_turn mid tcod g objs rng with
      | none =>
          rw [hstep] at hit
          exact Option.noConfusion hit
      | some st1 =>
          rw [hstep] at hit
          simp only [Option.some_bind] at hit
          obtain ⟨g1, objs1, rng1⟩ := st1
          obtain ⟨⟨m1, hm1, hai1, hname1⟩, _, hgame, _⟩ :=
            ai_take_turn_confused tcod mid g objs rng prev nt monster hm hai
              g1 objs1 rng1 hstep
          rw [if_pos hnt] at hai1
          have hg1 : g1 = g := hgame hnt
          subst hg1
          rcases Nat.eq_zero_or_pos k with hk0 | hkpos
          · subst hk0
            simp only [iterResolve, Option.some_inj] at hit
            subst hit
            refine ⟨⟨m1, hm1, ?_, hname1⟩, rfl⟩
            rw [hai1]
            norm_num
          · have h1 : 0 ≤ nt - 1 := by omega
            have h2 : (k : Int) ≤ (nt - 1) + 1 := by
              push_cast at hk ⊢
              omega
            obtain ⟨⟨m', hm', hai', hname'⟩, hgfinal⟩ :=
              ih g1 objs1 rng1 prev (nt - 1) m1 hm1 hai1 h1 h2 st' hit
            refine ⟨⟨m', hm', ?_, hname'.trans hname1⟩, hgfinal⟩
            rw [hai']
            congr 2
            push_cast
            omega

/-- Peeling the last resolution from an iterated run. -/
theorem iterResolve_succ_right (tcod : Tcod) (mid : Nat) (k : Nat)
    (st : Game × List DisplayObj × Rng) :
    iterResolve tcod mid (k + 1) st
      = (iterResolve tcod mid k st).bind
          (fun st1 => ai_take_turn mid tcod st1.1 st1.2.1 st1.2.2) := by
  induction k generalizing st with
  | zero => simp [iterResolve]
  | succ k ih =>
      simp only [iterResolve]
      cases ai_take_turn mid tcod st.1 st.2.1 st.2.2 with
      | none => simp
      | some st1 =>
          simp only [Option.some_bind]
          exact ih st1

/-- C4 (amended): applying `Confuse` (counter `CONFUSE_NUM_TURNS = 10`) to
a monster makes the counter take the values 10, 9, ..., 0, -1 over the
first 11 AI resolutions, during which the monster stays confused; the
previous AI is restored, with a log message, exactly on the 12th
resolution — once the counter has gone negative. -/
theorem C4_confusion_restored_on_twelfth (tcod : Tcod) (mid : Nat)
    (g : Game) (objs : List DisplayObj) (rng : Rng) (prev : Ai)
    (monster : DisplayObj) (hm : objs[mid]? = some monster)
    (hai : monster.ai = some (Ai.Confused prev CONFUSE_NUM_TURNS)) :
    (∀ k : Nat, k ≤ 11 → ∀ st',
      iterResolve tcod mid k (g, objs, rng) = some st' →
      (∃ m', st'.2.1[mid]? = some m'
        ∧ m'.ai = some (Ai.Confused prev (10 - (k : Int))))
      ∧ st'.1 = g)
    ∧ (∀ st', iterResolve tcod mid 12 (g, objs, rng) = some st' →
      (∃ m', st'.2.1[mid]? = some m' ∧ m'.ai = some prev)
      ∧ st'.1.messages = g.messages.add
          ("The " ++ monster.name ++ " is no longer confused!") RED) := by
  have hai10 : monster.ai = some (Ai.Confused prev 10) := by
    simpa [CONFUSE_NUM_TURNS] using hai
  constructor
  · intro k hk st' hit
    obtain ⟨⟨m', hm', hai', _⟩, hg⟩ :=
      iterResolve_confused tcod mid k g objs rng prev 10 monster hm hai10
        (by norm_num) (by push_cast; omega) st' hit
    exact ⟨⟨m', hm', hai'⟩, hg⟩
  · intro st' hit
    rw [iterResolve_succ_right tcod mid 11] at hit
    cases h11 : iterResolve tcod mid 11 (g, objs, rng) with
    | none =>
        rw [h11] at hit
        exact Option.noConfusion hit
    | some st11 =>
        rw [h11] at hit
        simp only [Option.some_bind] at hit
        obtain ⟨g11, objs11, rng11⟩ := st11
        obtain ⟨⟨m11, hm11, hai11, hname11⟩, hg11⟩ :=
          iterResolve_confused tcod mid 11 g objs rng prev 10 monster hm
            hai10 (by norm_num) (by norm_num) _ h11
        simp only at hm11 hai11 hg11
        subst hg11
        have hai11' : m11.ai = some (Ai.Confused prev (-1)) := by
          rw [hai11]
          norm_num
        obtain ⟨g', objs', rng'⟩ := st'
        obtain ⟨⟨m', hm', hai', _⟩, _, _, hmsg⟩ :=
          ai_take_turn_confused tcod mid g11 objs11 rng11 prev (-1) m11 hm11
            hai11' g' objs' rng' hit
        rw [if_neg (by norm_num)] at hai'
        refine ⟨⟨m', hm', hai'⟩, ?_⟩
        rw [hname11] at hmsg
        exact hmsg (by norm_num)

def tc4 : Tcod := { fov := fun _ _ => false, tables := none }

def g4 : Game :=
  { game_settings := GameSettings.new,
    map := List.replicate 3 (List.replicate 3 Tile.empty),
    messages := Messages.new, inventory := [], dungeon_level := 1 }

def monster4 : DisplayObj :=
  { DisplayObj.new 2 2 'o' "orc" GREEN true with
    alive := true
    ai := some (Ai.Confused Ai.Basic 10)
    fighter := some orcFighter }

def objs4 : List DisplayObj := [simplePlayer, monster4]

def rng4 : Rng := List.replicate 24 1

/-- Counterexample for C4 as stated: after exactly 11 AI resolutions the
monster's AI is still `Confused` with counter `-1`, not yet restored to
`Basic`. -/
theorem C4_counterexample :
    (iterResolve tc4 1 11 (g4, objs4, rng4)).map
        (fun st => st.2.1[1]?.bind (fun o => o.ai))
      = some (some (Ai.Confused Ai.Basic (-1))) := by decide

/-- Witness for C4's amended statement: the 12th resolution restores
`Basic`. -/
theorem C4_witness :
    (objs4[1]? = some monster4
      ∧ monster4.ai = some (Ai.Confused Ai.Basic CONFUSE_NUM_TURNS))
    ∧ (iterResolve tc4 1 12 (g4, objs4, rng4)).map
        (fun st => st.2.1[1]?.bind (fun o => o.ai))
      = some (some Ai.Basic) := by
  refine ⟨⟨rfl, rfl⟩, ?_⟩
  have hs : (iterResolve tc4 1 12 (g4, objs4, rng4)).isSome = true := by
    decide
  obtain ⟨st, hst⟩ := Option.isSome_iff_exists.mp hs
  rw [hst]
  obtain ⟨⟨m', hm', hai'⟩, _⟩ :=
    (C4_confusion_restored_on_twelfth tc4 1 g4 objs4 rng4 Ai.Basic monster4
      rfl rfl).2 st hst
  simp [hm', hai']

/-! ## C8: auto-equip slot invariant on pickup -/

/-- Number of inventory entries currently equipped in a given slot. -/
def equippedCountInSlot (slot : Slot) (inv : List DisplayObj) : Nat :=
  (inv.filter (fun item =>
    (item.equipment.map (fun e => e.equipped && e.slot == slot)).getD
      false)).length

/-- Each equipment slot holds at most one equipped inventory item. -/
def SlotInvariant (inv : List DisplayObj) : Prop :=
  ∀ s, equippedCountInSlot s inv ≤ 1

theorem equippedCountInSlot_append (s : Slot) (a b : List DisplayObj) :
    equippedCountInSlot s (a ++ b)
      = equippedCountInSlot s a + equippedCountInSlot s b := by
  simp [equippedCountInSlot, List.filter_append]

theorem set_append_singleton (l : List DisplayObj) (a b : DisplayObj) :
    (l ++ [a]).set l.length b = l ++ [b] := by
  induction l with
  | nil => rfl
  | cons x t ih => simp [List.set, ih]

theorem get_equipped_in_slot_none (s : Slot) (inv : List DisplayObj)
    (h : get_equipped_in_slot s inv = none) :
    ∀ item ∈ inv,
      (item.equipment.map (fun e => e.equipped && e.slot == s)).getD false
        = false := by
  intro item hmem
  have := List.findIdx?_eq_none_iff.mp h item hmem
  simpa using this

theorem equippedCountInSlot_zero_of_none (s : Slot) (inv : List DisplayObj)
    (h : get_equipped_in_slot s inv = none) :
    equippedCountInSlot s inv = 0 := by
  unfold equippedCountInSlot
  rw [List.length_eq_zero, List.filter_eq_nil_iff]
  intro a ha
  simp [get_equipped_in_slot_none s inv h a ha]

/-- C8 (amended): `pick_item_up` preserves the at-most-one-equipped-per-slot
invariant whenever the picked-up object is not itself already flagged as
equipped; the auto-equip step alone never equips into an occupied slot. -/
theorem C8_pickup_preserves_slot_invariant (object_id : Nat) (game : Game)
    (objects : List DisplayObj) (item : DisplayObj)
    (hobj : objects[object_id]? = some item)
    (hneq : (item.equipment.map (fun e => e.equipped)).getD false = false)
    (hinv : SlotInvariant game.inventory) :
    ∀ g' objs', pick_item_up object_id game objects = some (g', objs') →
      SlotInvariant g'.inventory := by
  intro g' objs' h
  unfold pick_item_up at h
  by_cases hfull : game.inventory.length ≥ MAX_INV_SPACE
  · rw [if_pos hfull] at h
    simp only [hobj, Option.some_inj, Prod.mk.injEq] at h
    obtain ⟨hg, _⟩ := h
    rw [← hg]
    exact hinv
  · rw [if_neg hfull] at h
    simp only [hobj] at h
    have hsingle : ∀ (x : DisplayObj) (s : Slot),
        equippedCountInSlot s [x] ≤ 1 := by
      intro x s
      simp only [equippedCountInSlot, List.filter]
      split <;> simp
    cases heqp : item.equipment with
    | none =>
        simp only [heqp, Option.map_none'] at h
        simp only [Option.some_inj, Prod.mk.injEq] at h
        obtain ⟨hg, _⟩ := h
        rw [← hg]
        intro s
        dsimp only
        rw [equippedCountInSlot_append]
        have hzero : equippedCountInSlot s [item] = 0 := by
          simp [equippedCountInSlot, List.filter, heqp]
        have := hinv s
        omega
    | some e =>
        have hef : e.equipped = false := by
          simpa [heqp] using hneq
        simp only [heqp, Option.map_some'] at h
        by_cases hocc :
            get_equipped_in_slot e.slot (game.inventory ++ [item]) = none
        · rw [if_pos hocc] at h
          rw [List.getElem?_concat_length] at h
          simp only [DisplayObj.equip, heqp, hef] at h
          cases hitem : item.item with
          | none =>
              simp only [hitem, eq_self_iff_true, if_true] at h
              simp only [Option.some_inj, Prod.mk.injEq] at h
              obtain ⟨hg, _⟩ := h
              rw [← hg]
              intro s
              dsimp only
              rw [set_append_singleton, equippedCountInSlot_append]
              have hzero : equippedCountInSlot s [item] = 0 := by
                simp [equippedCountInSlot, List.filter, heqp, hef]
              have := hinv s
              omega
          | some it =>
              simp only [hitem] at h
              rw [if_neg (by simp)] at h
              simp only [if_true] at h
              simp only [Option.some_inj, Prod.mk.injEq] at h
              obtain ⟨hg, _⟩ := h
              rw [← hg]
              intro s
              dsimp only
              rw [set_append_singleton, equippedCountInSlot_append]
              by_cases hs : s = e.slot
              · subst hs
                have h0 : equippedCountInSlot e.slot game.inventory = 0 := by
                  unfold equippedCountInSlot
                  rw [List.length_eq_zero, List.filter_eq_nil_iff]
                  intro a ha
                  simpa using get_equipped_in_slot_none _ _ hocc a
                    (List.mem_append_left _ ha)
                rw [h0]
                simpa using hsingle _ e.slot
              · have hbe : (e.slot == s) = false :=
                  beq_eq_false_iff_ne.mpr (fun hh => hs hh.symm)
                have hpre := hinv s
                simpa [equippedCountInSlot, List.filter, hbe] using hpre
        · rw [if_neg hocc] at h
          simp only [Option.some_inj, Prod.mk.injEq] at h
          obtain ⟨hg, _⟩ := h
          rw [← hg]
          intro s
          dsimp only
          rw [equippedCountInSlot_append]
          have hzero : equippedCountInSlot s [item] = 0 := by
            simp [equippedCountInSlot, List.filter, heqp, hef]
          have := hinv s
          omega

def swordEquip : Equipment :=
  { slot := Slot.LeftHand, equipped := true, max_hp_bonus := 0,
    power_bonus := 1, defense_bonus := 0 }

def invSword : DisplayObj :=
  { DisplayObj.new 0 0 '-' "sword" SKY false with
    item := some Item.Sword
    equipment := some swordEquip }

/-- A floor item spawned already flagged as equipped (reachable through a
config template whose equipment has `equipped: true`). -/
def floorSword : DisplayObj :=
  { DisplayObj.new 1 1 '-' "sword" SKY false with
    item := some Item.Sword
    equipment := some swordEquip }

def g8 : Game :=
  { game_settings := GameSettings.new, map := [], messages := Messages.new,
    inventory := [invSword], dungeon_level := 1 }

def objects8 : List DisplayObj := [simplePlayer, floorSword]

/-- Counterexample for C8 as stated: picking up an already-equipped item
whose slot is occupied skips the auto-equip but leaves the item equipped,
ending with two entities equipped in the left hand. -/
theorem C8_counterexample :
    SlotInvariant g8.inventory
    ∧ (pick_item_up 1 g8 objects8).map
        (fun r => equippedCountInSlot Slot.LeftHand r.1.inventory)
      = some 2 := by
  constructor
  · intro s
    cases s <;> decide
  · decide

def shieldEquipFree : Equipment :=
  { slot := Slot.RightHand, equipped := false, max_hp_bonus := 0,
    power_bonus := 0, defense_bonus := 1 }

def floorShield : DisplayObj :=
  { DisplayObj.new 1 1 '0' "shield" SKY false with
    item := some Item.Shield
    equipment := some shieldEquipFree }

def objects8b : List DisplayObj := [simplePlayer, floorShield]

/-- Witness for C8's amended statement at a concrete pickup. -/
theorem C8_witness :
    (objects8b[1]? = some floorShield
      ∧ (floorShield.equipment.map (fun e => e.equipped)).getD false = false
      ∧ SlotInvariant g8.inventory
      ∧ (pick_item_up 1 g8 objects8b).isSome = true)
    ∧ equippedCountInSlot Slot.RightHand
        (((pick_item_up 1 g8 objects8b).map (fun r => r.1.inventory)).getD
          []) ≤ 1 := by
  have hinv : SlotInvariant g8.inventory := by
    intro s
    cases s <;> decide
  refine ⟨⟨rfl, rfl, hinv, by decide⟩, ?_⟩
  cases hp : pick_item_up 1 g8 objects8b with
  | none => decide
  | some r =>
      obtain ⟨g', objs'⟩ := r
      have := C8_pickup_preserves_slot_invariant 1 g8 objects8b floorShield
        rfl rfl hinv g' objs' hp
      simpa using this Slot.RightHand

/-! ## C9: stair descent -/

theorem spawnLoop_append (choices : List Nat)
    (conf_data : List ObjectConfiguration) (room : Room) (map : GameMap) :
    ∀ (n : Nat) (objects : List DisplayObj) (rng : Rng)
      (res : List DisplayObj × Rng),
      spawnLoop choices conf_data room map n objects rng = some res →
      ∃ extra, res.1 = objects ++ extra := by
  intro n
  induction n with
  | zero =>
      intro objects rng res h
      simp only [spawnLoop, Option.some_inj] at h
      subst h
      exact ⟨[], by simp⟩
  | succ n ih =>
      intro objects rng res h
      simp only [spawnLoop] at h
      rcases h1 : genRange (room.x1 + 1) room.x2 rng with _ | ⟨x, rng1⟩ <;>
        rw [h1] at h
      · exact Option.noConfusion h
      · simp only [] at h
        rcases h2 : genRange (room.y1 + 1) room.y2 rng1 with _ | ⟨y, rng2⟩ <;>
          rw [h2] at h
        · exact Option.noConfusion h
        · simp only [] at h
          rcases h3 : is_blocked x y map objects with _ | b <;> rw [h3] at h
          · exact Option.noConfusion h
          · cases b
            · simp only [] at h
              rcases h4 : conf_data[(sampleWeighted choices rng2).1]? with
                _ | od <;> rw [h4] at h
              · exact Option.noConfusion h
              · obtain ⟨extra, hx⟩ := ih _ _ _ h
                refine ⟨od.as_object x y :: extra, ?_⟩
                rw [hx]
                simp
            · exact ih _ _ _ h

theorem generate_objects_append (max_spawns : Nat)
    (conf_data : List ObjectConfiguration) (room : Room) (map : GameMap)
    (level : Nat) (objects : List DisplayObj) (rng : Rng)
    (res : List DisplayObj × Rng)
    (h : generate_objects max_spawns conf_data room map level objects rng
      = some res) :
    ∃ extra, res.1 = objects ++ extra := by
  unfold generate_objects at h
  rcases hg : genRangeNat 0 (max_spawns + 1) rng with _ | ⟨num, rng1⟩ <;>
    rw [hg] at h
  · exact Option.noConfusion h
  · simp only [] at h
    rcases hw : weightedIndexNew (conf_data.map
        (fun data => from_dungeon_level data.transition_table level)) with
      _ | choices <;> rw [hw] at h
    · exact Option.noConfusion h
    · exact spawnLoop_append choices conf_data room map num objects rng1
        res h

theorem place_objects_append (tcod : Tcod) (room : Room) (map : GameMap)
    (level : Nat) (objects : List DisplayObj) (rng : Rng)
    (res : List DisplayObj × Rng)
    (h : place_objects tcod room map level objects rng = some res) :
    ∃ extra, res.1 = objects ++ extra := by
  unfold place_objects at h
  rcases ht : tcod.tables with _ | tables <;> rw [ht] at h
  · exact Option.noConfusion h
  · simp only [] at h
    rcases h1 : generate_objects
        (from_dungeon_level tables.max_monsters level) tables.monsters room
        map level objects rng with _ | res1 <;> rw [h1] at h
    · exact Option.noConfusion h
    · obtain ⟨objs1, rng1⟩ := res1
      simp only [] at h
      obtain ⟨e1, he1⟩ := generate_objects_append _ _ _ _ _ _ _ _ h1
      obtain ⟨e2, he2⟩ := generate_objects_append _ _ _ _ _ _ _ _ h
      refine ⟨e1 ++ e2, ?_⟩
      rw [he2]
      simp only at he1
      rw [he1]
      simp

/-- The room-placement loop never disturbs the entity at index 0 except by
`set_pos`: its fighter facet and name are preserved. -/
theorem makeMapLoop_player (tcod : Tcod) (gs : GameSettings) (level : Nat) :
    ∀ (n : Nat) (map : GameMap) (objects : List DisplayObj)
      (rooms : List Room) (rng : Rng)
      (res : GameMap × List DisplayObj × List Room × Rng),
      makeMapLoop tcod gs level n map objects rooms rng = some res →
      ∀ p, objects[0]? = some p →
        ∃ q, res.2.1[0]? = some q ∧ q.fighter = p.fighter
          ∧ q.name = p.name := by
  intro n
  induction n with
  | zero =>
      intro map objects rooms rng res h p hp
      simp only [makeMapLoop, Option.some_inj] at h
      subst h
      exact ⟨p, hp, rfl, rfl⟩
  | succ n ih =>
      intro map objects rooms rng res h p hp
      have hlen0 : 0 < objects.length := (List.getElem?_eq_some.mp hp).1
      simp only [makeMapLoop] at h
      rcases h1 : genRangeNat gs.room_min_size (gs.room_max_size + 1) rng
        with _ | ⟨w, rng1⟩ <;> rw [h1] at h
      · exact Option.noConfusion h
      · simp only [] at h
        rcases h2 : genRangeNat gs.room_min_size (gs.room_max_size + 1) rng1
          with _ | ⟨hh, rng2⟩ <;> rw [h2] at h
        · exact Option.noConfusion h
        · simp only [] at h
          rcases h3 : genRange 0 (gs.map_w - Int.ofNat w) rng2
            with _ | ⟨x, rng3⟩ <;> rw [h3] at h
          · exact Option.noConfusion h
          · simp only [] at h
            rcases h4 : genRange 0 (gs.map_h - Int.ofNat hh) rng3
              with _ | ⟨y, rng4⟩ <;> rw [h4] at h
            · exact Option.noConfusion h
            · simp only [] at h
              split at h
              · exact ih _ _ _ _ _ h _ hp
              · split at h
                · exact Option.noConfusion h
                · split at h
                  · simp only [PLAYER_ID] at h
                    rw [hp] at h
                    simp only [] at h
                    obtain ⟨q, hq, hqf, hqn⟩ :=
                      ih _ _ _ _ _ h _ (List.getElem?_set_eq_of_lt _ hlen0)
                    exact ⟨q, hq, hqf, hqn⟩
                  · split at h
                    · exact Option.noConfusion h
                    · next objs1 rng5 heqpo =>
                        obtain ⟨extra, hext⟩ :=
                          place_objects_append _ _ _ _ _ _ _ heqpo
                        simp only at hext
                        have hp1 : objs1[0]? = some p := by
                          rw [hext, List.getElem?_append_left hlen0, hp]
                        split at h
                        · exact Option.noConfusion h
                        · split at h
                          · split at h
                            · exact Option.noConfusion h
                            · split at h
                              · exact Option.noConfusion h
                              · exact ih _ _ _ _ _ h _ hp1
                          · split at h
                            · exact Option.noConfusion h
                            · split at h
                              · exact Option.noConfusion h
                              · exact ih _ _ _ _ _ h _ hp1

/-- `make_map` preserves the player's fighter facet and name. -/
theorem make_map_player (tcod : Tcod) (objects : List DisplayObj)
    (gs : GameSettings) (level : Nat) (rng : Rng)
    (res : GameMap × List DisplayObj × Rng)
    (h : make_map tcod objects gs level rng = some res) :
    ∀ p, objects[0]? = some p →
      ∃ q, res.2.1[0]? = some q ∧ q.fighter = p.fighter
        ∧ q.name = p.name := by
  intro p hp
  unfold make_map at h
  simp only [PLAYER_ID] at h
  rw [hp] at h
  simp only [] at h
  have htake : (objects.take 1)[0]? = some p := by
    rw [List.getElem?_take]
    simpa using hp
  split at h
  · exact Option.noConfusion h
  · next map1 objs1 rooms1 rng1 heqloop =>
      split at h
      · exact Option.noConfusion h
      · simp only [Option.some_inj] at h
        obtain ⟨q, hq, hqf, hqn⟩ :=
          makeMapLoop_player tcod gs level _ _ _ _ _ _ heqloop p htake
        simp only at hq
        have hlen1 : 0 < objs1.length := (List.getElem?_eq_some.mp hq).1
        refine ⟨q, ?_, hqf, hqn⟩
        rw [← h]
        simpa [List.getElem?_append_left hlen1] using hq

/-- The fighter facet after `heal`: hp increased and clamped at max hp. -/
theorem heal_fighter (p : DisplayObj) (f : Fighter) (amt : Int) (g : Game)
    (hf : p.fighter = some f) :
    (p.heal amt g).fighter
      = some { f with hp := if f.hp + amt > p.max_hp g then p.max_hp g
          else f.hp + amt } := by
  unfold DisplayObj.heal
  rw [hf]
  by_cases hcmp : f.hp + amt > p.max_hp g
  · simp [hcmp]
  · simp [hcmp]

/-- Max hp only reads the inventory of the game state. -/
theorem max_hp_messages (p : DisplayObj) (g : Game) (m : Messages) :
    p.max_hp { g with messages := m } = p.max_hp g := rfl

/-- C9: `next_level` increments the dungeon level by exactly one, leaves
the inventory unchanged and heals the player by half of their
equipment-inclusive max hp (truncating division), the result clamped at
max hp; the player's other fighter fields are unchanged. -/
theorem C9_next_level (tcod : Tcod) (game : Game)
    (objects : List DisplayObj) (rng : Rng) (p : DisplayObj) (f : Fighter)
    (hp : objects[PLAYER_ID]? = some p) (hf : p.fighter = some f) :
    (next_level tcod game objects rng).isSome = true →
      ((next_level tcod game objects rng).map (fun r => r.1.dungeon_level)
        = some (game.dungeon_level + 1))
      ∧ ((next_level tcod game objects rng).map (fun r => r.1.inventory)
        = some game.inventory)
      ∧ ((next_level tcod game objects rng).map
          (fun r => r.2.1[PLAYER_ID]?.map (fun q => q.fighter)))
        = some (some (some { f with
            hp := if f.hp + Int.tdiv (p.max_hp game) 2 > p.max_hp game
              then p.max_hp game
              else f.hp + Int.tdiv (p.max_hp game) 2 })) := by
  intro hsome
  obtain ⟨res, hres⟩ := Option.isSome_iff_exists.mp hsome
  rw [hres]
  have hlen0 : 0 < objects.length := by
    have := (List.getElem?_eq_some.mp (by simpa [PLAYER_ID] using hp)).1
    omega
  unfold next_level at hres
  rw [hp] at hres
  simp only [] at hres
  split at hres
  · exact Option.noConfusion hres
  · next map2 objs2 rng2 heqmm =>
      simp only [Option.some_inj] at hres
      subst hres
      refine ⟨by simp, by simp, ?_⟩
      simp only [Option.map_some']
      have hp1 : (objects.set PLAYER_ID
          (p.heal (Int.tdiv (p.max_hp { game with
            messages := game.messages.add
              "You descend down further into the crypt, where will it end..."
              RED }) 2) { game with
            messages := game.messages.add
              "You descend down further into the crypt, where will it end..."
              RED }))[0]?
          = some (p.heal (Int.tdiv (p.max_hp { game with
            messages := game.messages.add
              "You descend down further into the crypt, where will it end..."
              RED }) 2) { game with
            messages := game.messages.add
              "You descend down further into the crypt, where will it end..."
              RED }) := by
        simpa [PLAYER_ID] using List.getElem?_set_eq_of_lt _ hlen0
      obtain ⟨q, hq, hqf, _⟩ := make_map_player _ _ _ _ _ _ heqmm _ hp1
      simp only [PLAYER_ID] at hq ⊢
      rw [hq]
      simp only [Option.map_some']
      rw [hqf, heal_fighter _ f _ _ hf]
      simp only [max_hp_messages]

def smallSettings : GameSettings :=
  { GameSettings.new with
    map_w := 10
    map_h := 10
    room_min_size := 3
    room_max_size := 3
    max_rooms := 1 }

def game9 : Game :=
  { game_settings := smallSettings,
    map := List.replicate 10 (List.replicate 10 Tile.wall),
    messages := Messages.new, inventory := [], dungeon_level := 1 }

def objects9 : List DisplayObj := [simplePlayer]

def rng9 : Rng := [0, 0, 0, 0]

/-- Witness for C9 at a concrete descent. -/
theorem C9_witness :
    (objects9[PLAYER_ID]? = some simplePlayer
      ∧ simplePlayer.fighter = some playerFighter
      ∧ (next_level tc4 game9 objects9 rng9).isSome = true)
    ∧ ((next_level tc4 game9 objects9 rng9).map (fun r => r.1.dungeon_level)
        = some (game9.dungeon_level + 1)) := by
  have hs : (next_level tc4 game9 objects9 rng9).isSome = true := by decide
  exact ⟨⟨rfl, rfl, hs⟩,
    ((C9_next_level tc4 game9 objects9 rng9 simplePlayer playerFighter rfl
      rfl) hs).1⟩

/-! ## C5: fireball -/

/-- Specification-side sum of the xp of the non-player fighter entities the
fireball kills: those within the blast radius whose hp drops to or below
zero under `FIREBALL_DAMAGE`. -/
def fireballXpFrom (x y : Int) : Nat → List DisplayObj → Nat
  | _, [] => 0
  | id, obj :: rest =>
      (if distTile2 obj x y ≤ FIREBALL_RADIUS * FIREBALL_RADIUS
          ∧ obj.fighter.isSome = true then
        (match obj.fighter with
         | some f =>
             if f.hp - FIREBALL_DAMAGE ≤ 0 ∧ id ≠ PLAYER_ID then f.xp else 0
         | none => 0)
      else 0) + fireballXpFrom x y (id + 1) rest

/-- Entrywise characterization of the fireball burn loop. -/
theorem fireballLoop_spec (x y : Int) :
    ∀ (l : List DisplayObj) (id : Nat) (game : Game) (acc : Nat),
      (fireballLoop x y id l game acc).1.length = l.length
      ∧ (∀ (i : Nat) (o : DisplayObj), l[i]? = some o →
          ¬(distTile2 o x y ≤ FIREBALL_RADIUS * FIREBALL_RADIUS
            ∧ o.fighter.isSome = true) →
          (fireballLoop x y id l game acc).1[i]? = some o)
      ∧ (∀ (i : Nat) (o : DisplayObj) (f : Fighter), l[i]? = some o →
          o.fighter = some f →
          distTile2 o x y ≤ FIREBALL_RADIUS * FIREBALL_RADIUS →
          ∀ (q : DisplayObj), (fireballLoop x y id l game acc).1[i]? = some q →
          (∀ (f' : Fighter), q.fighter = some f' →
            f'.hp = f.hp - FIREBALL_DAMAGE)
          ∧ (f.on_death = DeathCallback.Player →
              q.fighter = some { f with hp := f.hp - FIREBALL_DAMAGE }))
      ∧ (fireballLoop x y id l game acc).2.2
          = acc + fireballXpFrom x y id l := by
  intro l
  induction l with
  | nil =>
      intro id game acc
      refine ⟨rfl, ?_, ?_, by simp [fireballLoop, fireballXpFrom]⟩
      · intro i o hio
        simp at hio
      · intro i o f hio
        simp at hio
  | cons o rest ih =>
      intro id game acc
      by_cases hcond : distTile2 o x y ≤ FIREBALL_RADIUS * FIREBALL_RADIUS
          ∧ o.fighter.isSome = true
      · obtain ⟨f, hfo⟩ := Option.isSome_iff_exists.mp hcond.2
        have hmax : max 0 FIREBALL_DAMAGE = FIREBALL_DAMAGE := by
          simp [FIREBALL_DAMAGE]
        obtain ⟨hxp, _, hfighter⟩ :=
          take_damage_spec o FIREBALL_DAMAGE { game with messages := game.messages.add (fireballMsg o) ORANGE } f hfo
        rw [hmax] at hxp hfighter
        simp only [fireballLoop, if_pos hcond]
        obtain ⟨ihlen, ihun, ihdmg, ihsum⟩ := ih (id + 1)
          (o.take_damage FIREBALL_DAMAGE { game with messages := game.messages.add (fireballMsg o) ORANGE }).2.2
          (match (o.take_damage FIREBALL_DAMAGE { game with messages := game.messages.add (fireballMsg o) ORANGE }).1 with
          | some xp => if id ≠ PLAYER_ID then acc + xp else acc
          | none => acc)
        refine ⟨?_, ?_, ?_, ?_⟩
        · simpa using ihlen
        · intro i oo hio hnc
          cases i with
          | zero =>
              simp only [List.getElem?_cons_zero, Option.some_inj] at hio
              subst hio
              exact absurd hcond hnc
          | succ i =>
              simp only [List.getElem?_cons_succ] at hio ⊢
              exact ihun i oo hio hnc
        · intro i oo ff hio hfoo hd q hq
          cases i with
          | zero =>
              simp only [List.getElem?_cons_zero, Option.some_inj] at hio hq
              subst hio
              rw [hfo, Option.some_inj] at hfoo
              subst hfoo
              subst hq
              constructor
              · intro f' hf'
                rw [hfighter] at hf'
                split_ifs at hf' with hcc
                all_goals
                  first
                    | exact Option.noConfusion hf'
                    | (rw [Option.some_inj] at hf'; rw [← hf'])
              · intro hcb
                rw [hfighter]
                rw [if_neg (by simp [hcb])]
          | succ i =>
              simp only [List.getElem?_cons_succ] at hio hq
              exact ihdmg i oo ff hio hfoo hd q hq
        · have hacc : (match (o.take_damage FIREBALL_DAMAGE { game with messages := game.messages.add (fireballMsg o) ORANGE }).1 with
              | some xp => if id ≠ PLAYER_ID then acc + xp else acc
              | none => acc)
              = acc + (if f.hp - FIREBALL_DAMAGE ≤ 0 ∧ id ≠ PLAYER_ID
                  then f.xp else 0) := by
            rw [hxp]
            by_cases hkill : f.hp - FIREBALL_DAMAGE ≤ 0
            · simp only [if_pos hkill]
              by_cases hid : id ≠ PLAYER_ID
              · simp only [if_pos hid, if_pos (And.intro hkill hid)]
              · have hno : ¬(f.hp - FIREBALL_DAMAGE ≤ 0 ∧ id ≠ PLAYER_ID) :=
                  by tauto
                simp only [if_neg hid, if_neg hno]
                omega
            · have hno : ¬(f.hp - FIREBALL_DAMAGE ≤ 0 ∧ id ≠ PLAYER_ID) := by
                tauto
              simp only [if_neg hkill, if_neg hno]
              omega
          rw [hacc]
          rw [(ih (id + 1) _ _).2.2.2]
          simp only [fireballXpFrom, hfo, Option.isSome_some,
            eq_self_iff_true, and_true]
          rw [if_pos hcond.1]
          omega
      · simp only [fireballLoop, if_neg hcond]
        obtain ⟨ihlen, ihun, ihdmg, ihsum⟩ := ih (id + 1) game acc
        refine ⟨?_, ?_, ?_, ?_⟩
        · simpa using ihlen
        · intro i oo hio hnc
          cases i with
          | zero =>
              simp only [List.getElem?_cons_zero, Option.some_inj] at hio ⊢
              exact hio
          | succ i =>
              simp only [List.getElem?_cons_succ] at hio ⊢
              exact ihun i oo hio hnc
        · intro i oo ff hio hfoo hd q hq
          cases i with
          | zero =>
              simp only [List.getElem?_cons_zero, Option.some_inj] at hio hq
              subst hio
              exact absurd ⟨hd, by simp [hfoo]⟩ hcond
          | succ i =>
              simp only [List.getElem?_cons_succ] at hio hq
              exact ihdmg i oo ff hio hfoo hd q hq
        · simp only [ihsum, fireballXpFrom, if_neg hcond]
          omega

/-- Characterization of `cast_fireball_at` for an arbitrary threaded game
state, assuming the player entry carries a fighter with the Player death
callback. -/
theorem cast_fireball_at_spec (x y : Int) (g : Game)
    (objects : List DisplayObj) (p : DisplayObj) (pf : Fighter)
    (hp0 : objects[PLAYER_ID]? = some p)
    (hpf : p.fighter = some pf)
    (hpd : pf.on_death = DeathCallback.Player) :
    ∃ objects1 : List DisplayObj,
      (cast_fireball_at x y g objects).map
          (fun r => (r.1, r.2.2)) = some (UseResult.UsedUp, objects1)
      ∧ objects1.length = objects.length
      ∧ (∀ (i : Nat) (o : DisplayObj), objects[i]? = some o →
          i ≠ PLAYER_ID →
          ¬(distTile2 o x y ≤ FIREBALL_RADIUS * FIREBALL_RADIUS
            ∧ o.fighter.isSome = true) →
          objects1[i]? = some o)
      ∧ (∀ (i : Nat) (o : DisplayObj) (f : Fighter), objects[i]? = some o →
          i ≠ PLAYER_ID → o.fighter = some f →
          distTile2 o x y ≤ FIREBALL_RADIUS * FIREBALL_RADIUS →
          ∀ (q : DisplayObj), objects1[i]? = some q →
          ∀ (f' : Fighter), q.fighter = some f' →
            f'.hp = f.hp - FIREBALL_DAMAGE)
      ∧ (∃ (p1 : DisplayObj) (pf1 : Fighter),
          objects1[PLAYER_ID]? = some p1 ∧ p1.fighter = some pf1
          ∧ pf1.xp = pf.xp + fireballXpFrom x y 0 objects
          ∧ pf1.hp =
              (if distTile2 p x y ≤ FIREBALL_RADIUS * FIREBALL_RADIUS
               then pf.hp - FIREBALL_DAMAGE else pf.hp)) := by
  obtain ⟨hlen, hun, hdmg, hsum⟩ := fireballLoop_spec x y objects 0 g 0
  have hlt : PLAYER_ID < objects.length := (List.getElem?_eq_some.mp hp0).1
  have hlt1 : PLAYER_ID < (fireballLoop x y 0 objects g 0).1.length := by
    rw [hlen]
    exact hlt
  have hq : (fireballLoop x y 0 objects g 0).1[PLAYER_ID]?
      = some ((fireballLoop x y 0 objects g 0).1[PLAYER_ID]) :=
    List.getElem?_eq_getElem hlt1
  have hqf : ((fireballLoop x y 0 objects g 0).1[PLAYER_ID]).fighter
      = some { pf with hp := if distTile2 p x y ≤ FIREBALL_RADIUS * FIREBALL_RADIUS then pf.hp - FIREBALL_DAMAGE else pf.hp } := by
    by_cases hd : distTile2 p x y ≤ FIREBALL_RADIUS * FIREBALL_RADIUS
    · rw [if_pos hd]
      exact (hdmg PLAYER_ID p pf hp0 hpf hd _ hq).2 hpd
    · rw [if_neg hd]
      have hqe := hun PLAYER_ID p hp0 (fun hc => hd hc.1)
      rw [hq, Option.some_inj] at hqe
      rw [hqe]
      exact hpf
  simp only [cast_fireball_at]
  by_cases hx : (fireballLoop x y 0 objects g 0).2.2 > 0
  · rw [if_pos hx, hq]
    simp only []
    rw [hqf]
    simp only []
    refine ⟨_, by rw [Option.map_some'], ?_, ?_, ?_, ?_⟩
    · rw [List.length_set]
      exact hlen
    · intro i o hio hiP hnc
      rw [List.getElem?_set_ne (fun h => hiP h.symm)]
      exact hun i o hio hnc
    · intro i o f hio hiP hfo hd q hqi f' hf'
      rw [List.getElem?_set_ne (fun h => hiP h.symm)] at hqi
      exact (hdmg i o f hio hfo hd q hqi).1 f' hf'
    · refine ⟨_, _, List.getElem?_set_eq_of_lt _ hlt1, rfl, ?_, rfl⟩
      have := hsum
      simp only [Nat.zero_add] at this
      rw [this]
  · rw [if_neg hx]
    refine ⟨_, by rw [Option.map_some'], hlen, ?_, ?_, ?_⟩
    · intro i o hio _ hnc
      exact hun i o hio hnc
    · intro i o f hio _ hfo hd q hqi f' hf'
      exact (hdmg i o f hio hfo hd q hqi).1 f' hf'
    · refine ⟨_, _, hq, hqf, ?_, rfl⟩
      have hz : (fireballLoop x y 0 objects g 0).2.2 = 0 := by omega
      rw [hz] at hsum
      show pf.xp = pf.xp + fireballXpFrom x y 0 objects
      omega

/-- On a chosen tile, `cast_fireball` is `cast_fireball_at` on the game
with the targeting and explosion messages logged. -/
theorem cast_fireball_some_eq (x y : Int) (game : Game)
    (objects : List DisplayObj) :
    cast_fireball (some (x, y)) game objects
      = cast_fireball_at x y { game with messages := (game.messages.add "Left-click a target tile to strike, right-click to cancel." LIGHTER_CYAN).add ("The fireball explodes, burning everything within " ++ toString FIREBALL_RADIUS ++ " tiles") ORANGE } objects := rfl

/-- C5: on every entity list and chosen target tile, `cast_fireball`
returns `UsedUp`; every entity without a fighter facet or strictly farther
than the blast radius from the tile is unchanged; every fighter-bearing
entity within Euclidean distance 3 of the tile (squared distance at most
`FIREBALL_RADIUS * FIREBALL_RADIUS`) loses exactly `FIREBALL_DAMAGE` hp,
the player included; and the player's fighter is credited with exactly the
xp of the non-player entities killed by the blast (`fireballXpFrom`, which
excludes the player's own death). Hypotheses: the player entry exists,
carries a fighter, and uses the Player death callback. -/
theorem C5_cast_fireball (x y : Int) (game : Game)
    (objects : List DisplayObj) (p : DisplayObj) (pf : Fighter)
    (hp0 : objects[PLAYER_ID]? = some p)
    (hpf : p.fighter = some pf)
    (hpd : pf.on_death = DeathCallback.Player) :
    ∃ objects1 : List DisplayObj,
      (cast_fireball (some (x, y)) game objects).map
          (fun r => (r.1, r.2.2)) = some (UseResult.UsedUp, objects1)
      ∧ objects1.length = objects.length
      ∧ (∀ (i : Nat) (o : DisplayObj), objects[i]? = some o →
          i ≠ PLAYER_ID →
          ¬(distTile2 o x y ≤ FIREBALL_RADIUS * FIREBALL_RADIUS
            ∧ o.fighter.isSome = true) →
          objects1[i]? = some o)
      ∧ (∀ (i : Nat) (o : DisplayObj) (f : Fighter), objects[i]? = some o →
          i ≠ PLAYER_ID → o.fighter = some f →
          distTile2 o x y ≤ FIREBALL_RADIUS * FIREBALL_RADIUS →
          ∀ (q : DisplayObj), objects1[i]? = some q →
          ∀ (f' : Fighter), q.fighter = some f' →
            f'.hp = f.hp - FIREBALL_DAMAGE)
      ∧ (∃ (p1 : DisplayObj) (pf1 : Fighter),
          objects1[PLAYER_ID]? = some p1 ∧ p1.fighter = some pf1
          ∧ pf1.xp = pf.xp + fireballXpFrom x y 0 objects
          ∧ pf1.hp =
              (if distTile2 p x y ≤ FIREBALL_RADIUS * FIREBALL_RADIUS
               then pf.hp - FIREBALL_DAMAGE else pf.hp)) := by
  rw [cast_fireball_some_eq]
  exact cast_fireball_at_spec x y _ objects p pf hp0 hpf hpd

/-- Witness for C5: fireball at the player's own tile, with the player and
an adjacent orc both in the blast; the orc dies and its xp is credited. -/
theorem C5_witness :
    ([simplePlayer, simpleOrc][PLAYER_ID]? = some simplePlayer
      ∧ simplePlayer.fighter = some playerFighter
      ∧ playerFighter.on_death = DeathCallback.Player)
    ∧ (∃ objects1 : List DisplayObj,
        (cast_fireball (some (1, 1)) dummyGame [simplePlayer, simpleOrc]).map
            (fun r => (r.1, r.2.2)) = some (UseResult.UsedUp, objects1)
        ∧ objects1.length = [simplePlayer, simpleOrc].length
        ∧ (∀ (i : Nat) (o : DisplayObj),
            [simplePlayer, simpleOrc][i]? = some o →
            i ≠ PLAYER_ID →
            ¬(distTile2 o 1 1 ≤ FIREBALL_RADIUS * FIREBALL_RADIUS
              ∧ o.fighter.isSome = true) →
            objects1[i]? = some o)
        ∧ (∀ (i : Nat) (o : DisplayObj) (f : Fighter),
            [simplePlayer, simpleOrc][i]? = some o →
            i ≠ PLAYER_ID → o.fighter = some f →
            distTile2 o 1 1 ≤ FIREBALL_RADIUS * FIREBALL_RADIUS →
            ∀ (q : DisplayObj), objects1[i]? = some q →
            ∀ (f' : Fighter), q.fighter = some f' →
              f'.hp = f.hp - FIREBALL_DAMAGE)
        ∧ (∃ (p1 : DisplayObj) (pf1 : Fighter),
            objects1[PLAYER_ID]? = some p1 ∧ p1.fighter = some pf1
            ∧ pf1.xp = playerFighter.xp
                + fireballXpFrom 1 1 0 [simplePlayer, simpleOrc]
            ∧ pf1.hp =
                (if distTile2 simplePlayer 1 1
                    ≤ FIREBALL_RADIUS * FIREBALL_RADIUS
                 then playerFighter.hp - FIREBALL_DAMAGE
                 else playerFighter.hp))) :=
  ⟨⟨rfl, rfl, rfl⟩,
   C5_cast_fireball 1 1 dummyGame [simplePlayer, simpleOrc]
     simplePlayer playerFighter rfl rfl rfl⟩

/-! ## C6: lightning targeting and range -/

/-- Eligibility for the lightning bolt: the entity the `closest_monster`
scan can select at `max_range = LIGHTNING_RANGE`. Because the running
bound starts at `(max_range + 1) as f32` and the comparison is strict,
the actual cutoff is distance strictly below `LIGHTNING_RANGE + 1`
(squared distances compared). -/
def lightningEligible (tcod : Tcod) (player : DisplayObj) (id : Nat)
    (o : DisplayObj) : Prop :=
  id ≠ PLAYER_ID ∧ o.fighter.isSome = true ∧ o.ai.isSome = true
    ∧ tcod.fov o.x o.y = true
    ∧ dist2 player o < (LIGHTNING_RANGE + 1) * (LIGHTNING_RANGE + 1)

/-- If the `closest_monster` scan ends with no candidate, it started with
none and no listed entity passes the filter strictly inside the bound. -/
theorem closestLoop_none_spec (tcod : Tcod) (player : DisplayObj) :
    ∀ (l : List DisplayObj) (id : Nat) (best : Option Nat) (bound : Int),
      closestLoop tcod player l id best bound = none →
      best = none
      ∧ ∀ (j : Nat) (o : DisplayObj), l[j]? = some o →
          (id + j ≠ PLAYER_ID ∧ o.fighter.isSome = true
            ∧ o.ai.isSome = true ∧ tcod.fov o.x o.y = true) →
          bound ≤ dist2 player o := by
  intro l
  induction l with
  | nil =>
      intro id best bound h
      refine ⟨by simpa [closestLoop] using h, ?_⟩
      intro j o hj
      simp at hj
  | cons o rest ih =>
      intro id best bound h
      by_cases hc : id ≠ PLAYER_ID ∧ o.fighter.isSome = true
          ∧ o.ai.isSome = true ∧ tcod.fov o.x o.y = true
      · by_cases hd : dist2 player o < bound
        · simp only [closestLoop, if_pos hc, if_pos hd] at h
          exact Option.noConfusion (ih _ _ _ h).1
        · simp only [closestLoop, if_pos hc, if_neg hd] at h
          obtain ⟨hb, hall⟩ := ih _ _ _ h
          refine ⟨hb, ?_⟩
          intro j oo hj hcc
          cases j with
          | zero =>
              simp only [List.getElem?_cons_zero, Option.some_inj] at hj
              subst hj
              omega
          | succ j =>
              simp only [List.getElem?_cons_succ] at hj
              exact hall j oo hj
                ⟨by have := hcc.1; omega, hcc.2.1, hcc.2.2.1, hcc.2.2.2⟩
      · simp only [closestLoop, if_neg hc] at h
        obtain ⟨hb, hall⟩ := ih _ _ _ h
        refine ⟨hb, ?_⟩
        intro j oo hj hcc
        cases j with
        | zero =>
            simp only [List.getElem?_cons_zero, Option.some_inj] at hj
            subst hj
            exact absurd (by simpa using hcc) hc
        | succ j =>
            simp only [List.getElem?_cons_succ] at hj
            exact hall j oo hj
              ⟨by have := hcc.1; omega, hcc.2.1, hcc.2.2.1, hcc.2.2.2⟩

/-- If the `closest_monster` scan returns a candidate, it is either the
inherited one with no listed entity inside the bound, or a listed entity
passing the filter, strictly inside the bound, and at minimal distance
among all listed entities passing the filter. -/
theorem closestLoop_some_spec (tcod : Tcod) (player : DisplayObj) :
    ∀ (l : List DisplayObj) (id : Nat) (best : Option Nat) (bound : Int)
      (m : Nat),
      closestLoop tcod player l id best bound = some m →
      (best = some m
        ∧ ∀ (j : Nat) (o : DisplayObj), l[j]? = some o →
            (id + j ≠ PLAYER_ID ∧ o.fighter.isSome = true
              ∧ o.ai.isSome = true ∧ tcod.fov o.x o.y = true) →
            bound ≤ dist2 player o)
      ∨ (∃ (j : Nat) (o : DisplayObj), l[j]? = some o ∧ m = id + j
          ∧ (m ≠ PLAYER_ID ∧ o.fighter.isSome = true
              ∧ o.ai.isSome = true ∧ tcod.fov o.x o.y = true)
          ∧ dist2 player o < bound
          ∧ ∀ (j' : Nat) (o' : DisplayObj), l[j']? = some o' →
              (id + j' ≠ PLAYER_ID ∧ o'.fighter.isSome = true
                ∧ o'.ai.isSome = true ∧ tcod.fov o'.x o'.y = true) →
              dist2 player o ≤ dist2 player o') := by
  intro l
  induction l with
  | nil =>
      intro id best bound m h
      left
      refine ⟨by simpa [closestLoop] using h, ?_⟩
      intro j o hj
      simp at hj
  | cons o rest ih =>
      intro id best bound m h
      by_cases hc : id ≠ PLAYER_ID ∧ o.fighter.isSome = true
          ∧ o.ai.isSome = true ∧ tcod.fov o.x o.y = true
      · by_cases hd : dist2 player o < bound
        · simp only [closestLoop, if_pos hc, if_pos hd] at h
          rcases ih _ _ _ _ h with ⟨hbm, hall⟩ |
            ⟨j, o1, hj, hm, hcc, hdo, hmin⟩
          · right
            rw [Option.some_inj] at hbm
            refine ⟨0, o, by simp, by omega, ?_, hd, ?_⟩
            · rw [← hbm]
              exact hc
            · intro j' o' hj' hcc'
              cases j' with
              | zero =>
                  simp only [List.getElem?_cons_zero, Option.some_inj] at hj'
                  subst hj'
                  exact le_refl _
              | succ j' =>
                  simp only [List.getElem?_cons_succ] at hj'
                  exact hall j' o' hj'
                    ⟨by have := hcc'.1; omega, hcc'.2.1, hcc'.2.2.1,
                      hcc'.2.2.2⟩
          · right
            refine ⟨j + 1, o1, by simpa using hj, by omega, hcc,
              by omega, ?_⟩
            intro j' o' hj' hcc'
            cases j' with
            | zero =>
                simp only [List.getElem?_cons_zero, Option.some_inj] at hj'
                subst hj'
                omega
            | succ j' =>
                simp only [List.getElem?_cons_succ] at hj'
                exact hmin j' o' hj'
                  ⟨by have := hcc'.1; omega, hcc'.2.1, hcc'.2.2.1,
                    hcc'.2.2.2⟩
        · simp only [closestLoop, if_pos hc, if_neg hd] at h
          rcases ih _ _ _ _ h with ⟨hbm, hall⟩ |
            ⟨j, o1, hj, hm, hcc, hdo, hmin⟩
          · left
            refine ⟨hbm, ?_⟩
            intro j' o' hj' hcc'
            cases j' with
            | zero =>
                simp only [List.getElem?_cons_zero, Option.some_inj] at hj'
                subst hj'
                omega
            | succ j' =>
                simp only [List.getElem?_cons_succ] at hj'
                exact hall j' o' hj'
                  ⟨by have := hcc'.1; omega, hcc'.2.1, hcc'.2.2.1,
                    hcc'.2.2.2⟩
          · right
            refine ⟨j + 1, o1, by simpa using hj, by omega, hcc,
              hdo, ?_⟩
            intro j' o' hj' hcc'
            cases j' with
            | zero =>
                simp only [List.getElem?_cons_zero, Option.some_inj] at hj'
                subst hj'
                omega
            | succ j' =>
                simp only [List.getElem?_cons_succ] at hj'
                exact hmin j' o' hj'
                  ⟨by have := hcc'.1; omega, hcc'.2.1, hcc'.2.2.1,
                    hcc'.2.2.2⟩
      · simp only [closestLoop, if_neg hc] at h
        rcases ih _ _ _ _ h with ⟨hbm, hall⟩ |
          ⟨j, o1, hj, hm, hcc, hdo, hmin⟩
        · left
          refine ⟨hbm, ?_⟩
          intro j' o' hj' hcc'
          cases j' with
          | zero =>
              simp only [List.getElem?_cons_zero, Option.some_inj] at hj'
              subst hj'
              exact absurd (by simpa using hcc') hc
          | succ j' =>
              simp only [List.getElem?_cons_succ] at hj'
              exact hall j' o' hj'
                ⟨by have := hcc'.1; omega, hcc'.2.1, hcc'.2.2.1,
                  hcc'.2.2.2⟩
        · right
          refine ⟨j + 1, o1, by simpa using hj, by omega, hcc, hdo, ?_⟩
          intro j' o' hj' hcc'
          cases j' with
          | zero =>
              simp only [List.getElem?_cons_zero, Option.some_inj] at hj'
              subst hj'
              exact absurd (by simpa using hcc') hc
          | succ j' =>
              simp only [List.getElem?_cons_succ] at hj'
              exact hmin j' o' hj'
                ⟨by have := hcc'.1; omega, hcc'.2.1, hcc'.2.2.1,
                  hcc'.2.2.2⟩

/-- C6: `cast_lightning` cancels, leaving the entity list unchanged, when
no entity is eligible — non-player, fighter and AI facets, in FOV, and
strictly closer to the player than `LIGHTNING_RANGE + 1` (not
`LIGHTNING_RANGE`: the scan's initial bound is `max_range + 1`, so squared
distances up to 35 are in reach). When an eligible entity exists, it
returns `UsedUp` and damages an eligible entity of minimal distance by
exactly `LIGHTNING_DAMAGE`, every other entity except the player (who may
be credited xp) being unchanged. Hypotheses: the entity list has a head
(the player), which carries a fighter. -/
theorem C6_cast_lightning (tcod : Tcod) (game : Game)
    (objects : List DisplayObj) (player : DisplayObj) (pf : Fighter)
    (hpl : objects.head? = some player)
    (hppf : player.fighter = some pf) :
    ((∀ (i : Nat) (o : DisplayObj), objects[i]? = some o →
        ¬ lightningEligible tcod player i o) →
      ∃ g1 : Game, cast_lightning tcod game objects
        = some (UseResult.Cancelled, g1, objects))
    ∧ ((∃ (i : Nat) (o : DisplayObj), objects[i]? = some o ∧
          lightningEligible tcod player i o) →
      ∃ (m : Nat) (o : DisplayObj) (f : Fighter)
        (objects1 : List DisplayObj),
        objects[m]? = some o ∧ o.fighter = some f
        ∧ lightningEligible tcod player m o
        ∧ (∀ (j : Nat) (o' : DisplayObj), objects[j]? = some o' →
            lightningEligible tcod player j o' →
            dist2 player o ≤ dist2 player o')
        ∧ (cast_lightning tcod game objects).map (fun r => (r.1, r.2.2))
            = some (UseResult.UsedUp, objects1)
        ∧ objects1.length = objects.length
        ∧ (∃ q : DisplayObj, objects1[m]? = some q
            ∧ ∀ (f' : Fighter), q.fighter = some f' →
                f'.hp = f.hp - LIGHTNING_DAMAGE)
        ∧ (∀ (i : Nat), i ≠ m → i ≠ PLAYER_ID →
            objects1[i]? = objects[i]?)) := by
  have hp0 : objects[PLAYER_ID]? = some player := by
    show objects[(0 : Nat)]? = some player
    rw [← List.head?_eq_getElem?]
    exact hpl
  have hcm : closest_monster tcod objects LIGHTNING_RANGE
      = closestLoop tcod player objects 0 none
          ((LIGHTNING_RANGE + 1) * (LIGHTNING_RANGE + 1)) := by
    simp only [closest_monster]
    rw [hpl]
  constructor
  · intro hnone
    rcases hres : closestLoop tcod player objects 0 none
        ((LIGHTNING_RANGE + 1) * (LIGHTNING_RANGE + 1)) with _ | m
    · refine ⟨{ game with messages := game.messages.add "No enemy is close enough to strike." RED }, ?_⟩
      simp only [cast_lightning, hcm, hres]
    · exfalso
      rcases closestLoop_some_spec tcod player objects 0 none _ m hres with
        ⟨hbm, -⟩ | ⟨j, o1, hj, hm, hcc, hdo, -⟩
      · exact Option.noConfusion hbm
      · refine hnone j o1 hj ?_
        simp only [lightningEligible]
        exact ⟨by have := hcc.1; omega, hcc.2.1, hcc.2.2.1,
          hcc.2.2.2, hdo⟩
  · rintro ⟨i0, oe, hie, helig⟩
    rcases hres : closestLoop tcod player objects 0 none
        ((LIGHTNING_RANGE + 1) * (LIGHTNING_RANGE + 1)) with _ | m
    · exfalso
      obtain ⟨-, hall⟩ :=
        closestLoop_none_spec tcod player objects 0 none _ hres
      simp only [lightningEligible] at helig
      have hge := hall i0 oe hie
        ⟨by have := helig.1; omega, helig.2.1, helig.2.2.1,
          helig.2.2.2.1⟩
      have := helig.2.2.2.2
      omega
    · rcases closestLoop_some_spec tcod player objects 0 none _ m hres with
        ⟨hbm, -⟩ | ⟨j, o1, hj, hm, hcc, hdo, hmin⟩
      · exact Option.noConfusion hbm
      · have hmj : m = j := by omega
        subst hmj
        have hne : m ≠ PLAYER_ID := hcc.1
        have hjlt : m < objects.length := (List.getElem?_eq_some.mp hj).1
        have hmax : max 0 LIGHTNING_DAMAGE = LIGHTNING_DAMAGE := by
          simp [LIGHTNING_DAMAGE]
        obtain ⟨f, hf⟩ := Option.isSome_iff_exists.mp hcc.2.1
        obtain ⟨hxp, halive, hfighter⟩ :=
          take_damage_spec o1 LIGHTNING_DAMAGE { game with messages := game.messages.add (lightningMsg o1) LIGHT_BLUE } f hf
        rw [hmax] at hxp hfighter
        by_cases hkill : f.hp - LIGHTNING_DAMAGE ≤ 0
        · rw [if_pos hkill] at hxp
          refine ⟨m, o1, f,
            (objects.set m (o1.take_damage LIGHTNING_DAMAGE { game with messages := game.messages.add (lightningMsg o1) LIGHT_BLUE }).2.1).set PLAYER_ID { player with fighter := some { pf with xp := pf.xp + f.xp } },
            hj, hf, ?_, ?_, ?_, ?_, ?_, ?_⟩
          · simp only [lightningEligible]
            exact ⟨hcc.1, hcc.2.1, hcc.2.2.1, hcc.2.2.2, hdo⟩
          · intro j' o' hj' he'
            simp only [lightningEligible] at he'
            exact hmin j' o' hj'
              ⟨by have := he'.1; omega, he'.2.1, he'.2.2.1,
                he'.2.2.2.1⟩
          · simp only [cast_lightning, hcm, hres]
            rw [hj]
            simp only []
            rw [hxp]
            simp only []
            rw [List.getElem?_set_ne hne, hp0]
            simp only []
            rw [hppf]
            simp only []
            rw [Option.map_some']
          · simp only [List.length_set]
          · refine ⟨(o1.take_damage LIGHTNING_DAMAGE { game with messages := game.messages.add (lightningMsg o1) LIGHT_BLUE }).2.1, ?_, ?_⟩
            · rw [List.getElem?_set_ne (fun h => hne h.symm)]
              exact List.getElem?_set_eq_of_lt _ hjlt
            · intro f' hf'
              rw [hfighter] at hf'
              split_ifs at hf' with hcb
              all_goals
                first
                  | exact Option.noConfusion hf'
                  | (rw [Option.some_inj] at hf'; rw [← hf'])
          · intro i hi hiP
            rw [List.getElem?_set_ne (fun h => hiP h.symm),
              List.getElem?_set_ne (fun h => hi h.symm)]
        · rw [if_neg hkill] at hxp
          refine ⟨m, o1, f,
            objects.set m (o1.take_damage LIGHTNING_DAMAGE { game with messages := game.messages.add (lightningMsg o1) LIGHT_BLUE }).2.1,
            hj, hf, ?_, ?_, ?_, ?_, ?_, ?_⟩
          · simp only [lightningEligible]
            exact ⟨hcc.1, hcc.2.1, hcc.2.2.1, hcc.2.2.2, hdo⟩
          · intro j' o' hj' he'
            simp only [lightningEligible] at he'
            exact hmin j' o' hj'
              ⟨by have := he'.1; omega, he'.2.1, he'.2.2.1,
                he'.2.2.2.1⟩
          · simp only [cast_lightning, hcm, hres]
            rw [hj]
            simp only []
            rw [hxp]
            simp only []
            rw [Option.map_some']
          · simp only [List.length_set]
          · refine ⟨(o1.take_damage LIGHTNING_DAMAGE { game with messages := game.messages.add (lightningMsg o1) LIGHT_BLUE }).2.1, List.getElem?_set_eq_of_lt _ hjlt, ?_⟩
            intro f' hf'
            rw [hfighter] at hf'
            split_ifs at hf' with hcb
            all_goals
              first
                | exact Option.noConfusion hf'
                | (rw [Option.some_inj] at hf'; rw [← hf'])
          · intro i hi hiP
            rw [List.getElem?_set_ne (fun h => hi h.symm)]

def farOrcFighter : Fighter :=
  { base_max_hp := 50, hp := 50, base_defense := 0, base_power := 4,
    xp := 35, on_death := DeathCallback.Monster }

/-- An orc at squared distance 34 from `simplePlayer`: Euclidean distance
about 5.83, beyond `LIGHTNING_RANGE` but below `LIGHTNING_RANGE + 1`. -/
def farOrc : DisplayObj :=
  { DisplayObj.new 4 6 'o' "orc" GREEN true with
    alive := true
    ai := some Ai.Basic
    fighter := some farOrcFighter }

/-- Counterexample for C6 as stated: an enemy whose distance to the player
exceeds `LIGHTNING_RANGE` (squared distance 34 > 25) is nevertheless
struck and damaged, because the scan's initial bound is
`max_range + 1`. -/
theorem C6_counterexample :
    LIGHTNING_RANGE * LIGHTNING_RANGE < dist2 simplePlayer farOrc
    ∧ (cast_lightning { fov := fun _ _ => true, tables := none } dummyGame
          [simplePlayer, farOrc]).map
        (fun r => (r.1, r.2.2.map (fun o => o.fighter.map Fighter.hp)))
      = some (UseResult.UsedUp, [some 100, some 10]) :=
  ⟨by decide, rfl⟩

/-- Witness for C6's amended statement at a concrete input: the same far
orc is eligible, minimal, and damaged by `LIGHTNING_DAMAGE`. -/
theorem C6_witness :
    ([simplePlayer, farOrc].head? = some simplePlayer
      ∧ simplePlayer.fighter = some playerFighter)
    ∧ (((∀ (i : Nat) (o : DisplayObj), [simplePlayer, farOrc][i]? = some o →
          ¬ lightningEligible { fov := fun _ _ => true, tables := none }
              simplePlayer i o) →
        ∃ g1 : Game,
          cast_lightning { fov := fun _ _ => true, tables := none }
              dummyGame [simplePlayer, farOrc]
            = some (UseResult.Cancelled, g1, [simplePlayer, farOrc]))
      ∧ ((∃ (i : Nat) (o : DisplayObj),
            [simplePlayer, farOrc][i]? = some o ∧
            lightningEligible { fov := fun _ _ => true, tables := none }
              simplePlayer i o) →
        ∃ (m : Nat) (o : DisplayObj) (f : Fighter)
          (objects1 : List DisplayObj),
          [simplePlayer, farOrc][m]? = some o ∧ o.fighter = some f
          ∧ lightningEligible { fov := fun _ _ => true, tables := none }
              simplePlayer m o
          ∧ (∀ (j : Nat) (o' : DisplayObj),
              [simplePlayer, farOrc][j]? = some o' →
              lightningEligible { fov := fun _ _ => true, tables := none }
                simplePlayer j o' →
              dist2 simplePlayer o ≤ dist2 simplePlayer o')
          ∧ (cast_lightning { fov := fun _ _ => true, tables := none }
                dummyGame [simplePlayer, farOrc]).map
              (fun r => (r.1, r.2.2))
              = some (UseResult.UsedUp, objects1)
          ∧ objects1.length = [simplePlayer, farOrc].length
          ∧ (∃ q : DisplayObj, objects1[m]? = some q
              ∧ ∀ (f' : Fighter), q.fighter = some f' →
                  f'.hp = f.hp - LIGHTNING_DAMAGE)
          ∧ (∀ (i : Nat), i ≠ m → i ≠ PLAYER_ID →
              objects1[i]? = [simplePlayer, farOrc][i]?))) :=
  ⟨⟨rfl, rfl⟩,
   C6_cast_lightning { fov := fun _ _ => true, tables := none } dummyGame
     [simplePlayer, farOrc] simplePlayer playerFighter rfl rfl⟩

end Necro
